import Mathlib

/-
  Shallow embedding of the real-time statistics distribution pipeline of the
  nyth-forge backend (TypeScript), covering:
    - src/common/utils/case.util.ts   (aggregate statistics computation)
    - src/websockets/service.websocket.ts  (tiered cache + stats service)
    - src/websockets/events.websocket.ts   (debounce, retry, client registry)
    - src/websockets/handler.websocket.ts  (per-connection protocol handler)
    - validation.websocket.ts              (inbound message validation)

  Conventions:
    - JS numbers that are always non-negative integers are Nat; machine times
      (Date.now()) are Nat milliseconds.
    - JS `a - b < k` on Nats agrees with Nat truncated subtraction whenever
      a >= b, and both sides are also `true` when a < b, so Nat subtraction is
      a faithful model of the comparisons used in the source.
    - Fallible operations (throwing TS code) return Except; catch blocks are
      explicit matches on the Except value.
    - The exact duration-string parsing formula (npm `parse-duration` plus a
      regex fallback) is external per spec section 1 non-goals; it is threaded
      through as an explicit function parameter `lib : String → ℚ`. No claim
      depends on its value.
-/

set_option linter.unusedVariables false

namespace NythForge

/-! ## Data model (case.util.ts / types.websocket.ts) -/

/-- OperatorStats subobject stored on an operator record (fields used by the
websocket statistics computation). `average_duration` is a duration string,
with `""` standing for a JS falsy/absent value. `last_test_date` is an
optional timestamp (ms). -/
structure OperatorStats where
  average_duration : String
  total_failed_tests : Nat
  total_passed_tests : Nat
  total_test_sessions : Nat
  last_test_date : Option Nat
  last_test_id : String
deriving Repr, DecidableEq

/-- OperatorAggregateData: one raw operator record as fetched for aggregation. -/
structure OperatorAggregateData where
  _id : String
  operator_name : String
  stats : OperatorStats
  createdAt : Nat
deriving Repr, DecidableEq

/-- ResultAggregateData: one raw result record as fetched for aggregation
(fields used by the statistics computation). -/
structure ResultAggregateData where
  _id : String
  operator_id : String
  product : String
  createdAt : Nat
deriving Repr, DecidableEq

/-- TopOperatorStats: one entry of the topOperators ranking. -/
structure TopOperatorStats where
  operatorId : String
  operatorName : String
  totalTestSessions : Nat
deriving Repr, DecidableEq

/-- ProductStats: one entry of the product rankings. -/
structure ProductStats where
  product : String
  total : Nat
deriving Repr, DecidableEq

/-- GlobalStats as produced by calculateGlobalStats. -/
structure GlobalStats where
  totalOperators : Nat
  totalProducts : Nat
  totalFailedTests : Nat
  totalPassedTests : Nat
  totalTestSessions : Nat
  totalDuration : String
  latestOperatorId : String
  latestTestSessionId : String
deriving Repr, DecidableEq

/-- The `stats` field set of WebSocketStatsData. -/
structure StatsFields where
  topOperators : List TopOperatorStats
  topProducts : List ProductStats
  products : List ProductStats
  latestOperatorId : String
  latestTestSessionId : String
  averageDuration : String
  averagePassRate : ℚ
  totalOperators : Nat
  totalProducts : Nat
  totalFailedTests : Nat
  totalPassedTests : Nat
  totalTestSessions : Nat
deriving Repr, DecidableEq

/-- WebSocketStatsData: the aggregate snapshot distributed to clients. -/
structure WebSocketStatsData where
  stats : StatsFields
deriving Repr, DecidableEq

/-- OperatorMetrics accumulator of calculateOperatorMetrics. -/
structure OperatorMetrics where
  totalFailedTests : Nat
  totalPassedTests : Nat
  totalTestSessions : Nat
  totalDurationMs : ℚ
  latestOperator : Option OperatorAggregateData
  latestTestOperator : Option OperatorAggregateData
deriving Repr, DecidableEq

/-! ## Statistics computation (case.util.ts) -/

def DEFAULT_DURATION : String := "0s"

def PRECISION_MULTIPLIER : ℚ := 10000

def PRECISION_DIVISOR : ℚ := 100

/-- formatDuration from case.util.ts: non-positive (or non-finite) input
yields the default duration; otherwise the duration is decomposed into the
hour/minute/second components reported by dayjs.duration and the nonzero
parts are joined (seconds always shown when alone). -/
def formatDuration (ms : ℚ) : String :=
  if ms ≤ 0 then DEFAULT_DURATION
  else
    let totalSecs : Nat := (⌊ms / 1000⌋).toNat
    let h := totalSecs / 3600 % 24
    let m := totalSecs / 60 % 60
    let s := totalSecs % 60
    let p1 : List String := if h > 0 then [toString h ++ "h"] else []
    let p2 : List String := if m > 0 then [toString m ++ "m"] else []
    let p3 : List String :=
      if s > 0 ∨ (p1.isEmpty ∧ p2.isEmpty) then [toString s ++ "s"] else []
    String.intercalate " " (p1 ++ p2 ++ p3)

/-- parseDurationToMs from case.util.ts: returns 0 for an absent/empty string
or the default duration; otherwise delegates to the external parsing pipeline
(`parse-duration` library with a regex fallback), modelled as `lib`. -/
def parseDurationToMs (lib : String → ℚ) (durationStr : String) : ℚ :=
  if durationStr = "" ∨ durationStr = DEFAULT_DURATION then 0
  else lib durationStr

/-- One step of the calculateOperatorMetrics reduce. -/
def operatorMetricsStep (lib : String → ℚ) (acc : OperatorMetrics)
    (op : OperatorAggregateData) : OperatorMetrics :=
  let sessions := op.stats.total_test_sessions
  let acc :=
    { acc with
      totalFailedTests := acc.totalFailedTests + op.stats.total_failed_tests
      totalPassedTests := acc.totalPassedTests + op.stats.total_passed_tests
      totalTestSessions := acc.totalTestSessions + sessions }
  let acc :=
    if op.stats.average_duration ≠ "" then
      { acc with totalDurationMs :=
          acc.totalDurationMs + parseDurationToMs lib op.stats.average_duration * sessions }
    else acc
  let acc :=
    match acc.latestOperator with
    | none => { acc with latestOperator := some op }
    | some latest =>
        if op.createdAt > latest.createdAt then { acc with latestOperator := some op }
        else acc
  match op.stats.last_test_date with
  | none => acc
  | some lastTestDate =>
      match acc.latestTestOperator with
      | none => { acc with latestTestOperator := some op }
      | some known =>
          match known.stats.last_test_date with
          | none => { acc with latestTestOperator := some op }
          | some latestKnownTestDate =>
              if lastTestDate > latestKnownTestDate then
                { acc with latestTestOperator := some op }
              else acc

def calculateOperatorMetrics (lib : String → ℚ)
    (operators : List OperatorAggregateData) : OperatorMetrics :=
  operators.foldl (operatorMetricsStep lib)
    { totalFailedTests := 0
      totalPassedTests := 0
      totalTestSessions := 0
      totalDurationMs := 0
      latestOperator := none
      latestTestOperator := none }

/-- calculateUniqueProducts: number of distinct non-empty trimmed product
names among the result records. -/
def calculateUniqueProducts (results : List ResultAggregateData) : Nat :=
  (((results.map (fun r => r.product.trim)).filter (fun p => p ≠ "")).dedup).length

def calculateGlobalStats (lib : String → ℚ)
    (operators : List OperatorAggregateData)
    (results : List ResultAggregateData) : GlobalStats :=
  let operatorMetrics := calculateOperatorMetrics lib operators
  let totalProducts := calculateUniqueProducts results
  { totalOperators := operators.length
    totalProducts := totalProducts
    totalFailedTests := operatorMetrics.totalFailedTests
    totalPassedTests := operatorMetrics.totalPassedTests
    totalTestSessions := operatorMetrics.totalTestSessions
    totalDuration := formatDuration operatorMetrics.totalDurationMs
    latestOperatorId := (operatorMetrics.latestOperator.map (fun o => o._id)).getD ""
    latestTestSessionId :=
      (operatorMetrics.latestTestOperator.map (fun o => o.stats.last_test_id)).getD "" }

/-- The pairwise pick of the calculateTopOperators reduce: keeps the operator
with strictly more total test sessions, the earlier one on ties. -/
def topOperatorPick (best current : OperatorAggregateData) : OperatorAggregateData :=
  if current.stats.total_test_sessions > best.stats.total_test_sessions then current
  else best

/-- calculateTopOperators: reduces the operator list to the single operator
with the most total test sessions and returns it as a one-element ranking
(empty input gives an empty ranking). -/
def calculateTopOperators (operators : List OperatorAggregateData) :
    List TopOperatorStats :=
  match operators with
  | [] => []
  | o :: rest =>
      let topOperator := rest.foldl topOperatorPick o
      [{ operatorId := topOperator._id
         operatorName := topOperator.operator_name
         totalTestSessions := topOperator.stats.total_test_sessions }]

/-- One step of the getRankedProducts counting reduce: a JS Map keyed by
trimmed product name, insertion order preserved. -/
def productCountStep (acc : List (String × Nat)) (r : ResultAggregateData) :
    List (String × Nat) :=
  if r.product ≠ "" then
    let p := r.product.trim
    if acc.any (fun e => e.1 = p) then
      acc.map (fun e => if e.1 = p then (e.1, e.2 + 1) else e)
    else acc ++ [(p, 1)]
  else acc

/-- Stable insert for the descending-by-total sort: an element goes after
every already-placed element with a greater-or-equal total. -/
def insertByTotalDesc (x : ProductStats) : List ProductStats → List ProductStats
  | [] => [x]
  | y :: ys => if x.total ≤ y.total then y :: insertByTotalDesc x ys else x :: y :: ys

/-- Stable sort descending by total, modelling the JS array sort with
comparator (a, b) => b.total - a.total. -/
def sortByTotalDesc : List ProductStats → List ProductStats
  | [] => []
  | x :: xs => insertByTotalDesc x (sortByTotalDesc xs)

/-- getRankedProducts: counts results per product, sorts descending by count
(stable, as the JS array sort), and slices to `limit` when limit is a truthy
number (i.e. present and nonzero). -/
def getRankedProducts (results : List ResultAggregateData) (limit : Option Nat) :
    List ProductStats :=
  let productCounts := results.foldl productCountStep []
  let sorted := sortByTotalDesc (productCounts.map (fun e => ProductStats.mk e.1 e.2))
  match limit with
  | some l => if 0 < l then sorted.take l else sorted
  | none => sorted

def DEFAULT_TOP_PRODUCTS_LIMIT : Nat := 1

def calculateTopProducts (results : List ResultAggregateData) (limit : Nat) :
    List ProductStats :=
  getRankedProducts results (some limit)

def calculateAllProducts (results : List ResultAggregateData) : List ProductStats :=
  getRankedProducts results none

def calculateAverageDuration (lib : String → ℚ) (totalDuration : String)
    (totalTestSessions : Nat) : String :=
  if totalTestSessions = 0 then DEFAULT_DURATION
  else formatDuration (parseDurationToMs lib totalDuration / totalTestSessions)

def calculateAveragePassRate (totalPassedTests totalFailedTests : Nat) : ℚ :=
  let totalTests := totalPassedTests + totalFailedTests
  if totalTests = 0 then 0
  else ((round ((totalPassedTests : ℚ) / (totalTests : ℚ) * PRECISION_MULTIPLIER) : ℤ) : ℚ)
        / PRECISION_DIVISOR

/-- DEFAULT_WEBSOCKET_STATS from case.util.ts. -/
def DEFAULT_WEBSOCKET_STATS : WebSocketStatsData :=
  { stats :=
    { topOperators := []
      topProducts := []
      products := []
      latestOperatorId := ""
      latestTestSessionId := ""
      averageDuration := "0s"
      averagePassRate := 0
      totalOperators := 0
      totalProducts := 0
      totalFailedTests := 0
      totalPassedTests := 0
      totalTestSessions := 0 } }

/-- generateWebSocketStatsData from case.util.ts (its body is pure and cannot
throw in this model, so the catch branch is unreachable and omitted). -/
def generateWebSocketStatsData (lib : String → ℚ)
    (operators : List OperatorAggregateData)
    (results : List ResultAggregateData)
    (topProductsLimit : Nat) : WebSocketStatsData :=
  let globalStats := calculateGlobalStats lib operators results
  let averagePassRate :=
    calculateAveragePassRate globalStats.totalPassedTests globalStats.totalFailedTests
  let averageDuration :=
    calculateAverageDuration lib globalStats.totalDuration globalStats.totalTestSessions
  { stats :=
    { topOperators := calculateTopOperators operators
      topProducts := calculateTopProducts results topProductsLimit
      products := calculateAllProducts results
      latestOperatorId := globalStats.latestOperatorId
      latestTestSessionId := globalStats.latestTestSessionId
      averageDuration := averageDuration
      averagePassRate := averagePassRate
      totalOperators := globalStats.totalOperators
      totalProducts := globalStats.totalProducts
      totalFailedTests := globalStats.totalFailedTests
      totalPassedTests := globalStats.totalPassedTests
      totalTestSessions := globalStats.totalTestSessions } }

/-! ## WebSocketService (service.websocket.ts): tiered cache + stats service -/

def CACHE_TTL_MS : Nat := 30 * 1000

/-- The raw-data source (operator and result record stores) backing
fetchAndGenerateStats. -/
structure RawSource where
  operators : List OperatorAggregateData
  results : List ResultAggregateData
deriving Repr, DecidableEq

/-- A Redis entry for the websocket:stats key. `validShape` models whether the
stored JSON passes the isValidStatsData shape check (a corrupted payload
fails it and is treated as a miss). `writtenAt` is the setEx instant; the key
expires CACHE_TTL_MS after it. -/
structure RedisEntry where
  payload : WebSocketStatsData
  validShape : Bool
  writtenAt : Nat
deriving Repr, DecidableEq

/-- Process-local state of the WebSocketService singleton, together with the
connection status of the primary (Redis) tier. -/
structure ServiceState where
  redisConnected : Bool
  redisEntry : Option RedisEntry
  fallbackCache : Option WebSocketStatsData
  lastFallbackUpdate : Nat
deriving Repr, DecidableEq

/-- Which tier served a getAggregatedStats call: a Redis hit, a local
fallback hit, or a fresh computation from the raw stores. -/
inductive CacheTier
  | redis
  | fallback
  | fresh
deriving Repr, DecidableEq

/-- Redis GET with setEx expiry: the entry is visible while now is strictly
before writtenAt + TTL. -/
def redisGet (st : ServiceState) (now : Nat) : Option RedisEntry :=
  match st.redisEntry with
  | some e => if now < e.writtenAt + CACHE_TTL_MS then some e else none
  | none => none

def shouldUseFallbackCache (st : ServiceState) (now : Nat) : Bool :=
  st.fallbackCache.isSome && now - st.lastFallbackUpdate < CACHE_TTL_MS

/-- The primary-tier part of getCachedData: only consulted when connected;
an entry failing the shape check is a miss. -/
def redisCachedRead (st : ServiceState) (now : Nat) : Option WebSocketStatsData :=
  if st.redisConnected then
    match redisGet st now with
    | some e => if e.validShape then some e.payload else none
    | none => none
  else none

/-- The local-fallback part of getCachedData: served only when present and
within TTL. -/
def fallbackCachedRead (st : ServiceState) (now : Nat) :
    Option (WebSocketStatsData × CacheTier) :=
  match st.fallbackCache with
  | some fb =>
      if shouldUseFallbackCache st now then some (fb, CacheTier.fallback)
      else none
  | none => none

/-- getCachedData: primary tier first, then the local fallback. -/
def getCachedData (st : ServiceState) (now : Nat) :
    Option (WebSocketStatsData × CacheTier) :=
  match redisCachedRead st now with
  | some d => some (d, CacheTier.redis)
  | none => fallbackCachedRead st now

/-- setCachedData: write-through to Redis when connected (soft-fail), and
always update the local fallback. -/
def setCachedData (st : ServiceState) (statsData : WebSocketStatsData)
    (now : Nat) : ServiceState :=
  let st :=
    if st.redisConnected then
      { st with redisEntry := some { payload := statsData, validShape := true, writtenAt := now } }
    else st
  { st with fallbackCache := some statsData, lastFallbackUpdate := now }

/-- clearCache: delete the Redis key when connected (soft-fail) and reset the
local fallback. -/
def clearCache (st : ServiceState) : ServiceState :=
  let st := if st.redisConnected then { st with redisEntry := none } else st
  { st with fallbackCache := none, lastFallbackUpdate := 0 }

inductive FetchOptions
  | operators
  | results
  | both
deriving Repr, DecidableEq

/-- fetchAndGenerateStats: fetch the selected raw record sets (the other one
replaced by an empty list) and compute the snapshot. -/
def fetchAndGenerateStats (lib : String → ℚ) (raw : RawSource)
    (option : FetchOptions) (topProductsLimit : Nat) : WebSocketStatsData :=
  let fetchOperators := option = FetchOptions.operators ∨ option = FetchOptions.both
  let fetchResults := option = FetchOptions.results ∨ option = FetchOptions.both
  generateWebSocketStatsData lib
    (if fetchOperators then raw.operators else [])
    (if fetchResults then raw.results else [])
    topProductsLimit

/-- Result of a getAggregatedStats call: the returned snapshot, the tier that
served it, and the service state afterwards. -/
structure StatsFetchResult where
  value : WebSocketStatsData
  tier : CacheTier
  state : ServiceState
deriving Repr, DecidableEq

/-- getAggregatedStats(topProductsLimit, forceRefresh): cache read unless
forced; on miss or force, compute from the raw stores and write the cache. -/
def getAggregatedStats (lib : String → ℚ) (raw : RawSource) (st : ServiceState)
    (topProductsLimit : Nat) (forceRefresh : Bool) (now : Nat) : StatsFetchResult :=
  if forceRefresh = false then
    match getCachedData st now with
    | some (d, tier) => { value := d, tier := tier, state := st }
    | none =>
        let statsData := fetchAndGenerateStats lib raw FetchOptions.both topProductsLimit
        { value := statsData, tier := CacheTier.fresh, state := setCachedData st statsData now }
  else
    let statsData := fetchAndGenerateStats lib raw FetchOptions.both topProductsLimit
    { value := statsData, tier := CacheTier.fresh, state := setCachedData st statsData now }

/-- getTopOperators: recomputes from the operator store directly (bypassing
the unified cache) and slices to the limit. -/
def getTopOperators (lib : String → ℚ) (raw : RawSource) (limit : Nat) :
    List TopOperatorStats :=
  ((fetchAndGenerateStats lib raw FetchOptions.operators 0).stats.topOperators).take limit

/-- getTopProducts: recomputes from the result store directly. -/
def getTopProducts (lib : String → ℚ) (raw : RawSource) (limit : Nat) :
    List ProductStats :=
  (fetchAndGenerateStats lib raw FetchOptions.results limit).stats.topProducts

/-- getAllProducts: recomputes from the result store directly. -/
def getAllProducts (lib : String → ℚ) (raw : RawSource) : List ProductStats :=
  (fetchAndGenerateStats lib raw FetchOptions.results 0).stats.products

/-- View returned by getGlobalStats: the snapshot minus its ranking lists. -/
structure GlobalStatsView where
  latestOperatorId : String
  latestTestSessionId : String
  averageDuration : String
  averagePassRate : ℚ
  totalOperators : Nat
  totalProducts : Nat
  totalFailedTests : Nat
  totalPassedTests : Nat
  totalTestSessions : Nat
deriving Repr, DecidableEq

def getGlobalStats (lib : String → ℚ) (raw : RawSource) : GlobalStatsView :=
  let stats := (fetchAndGenerateStats lib raw FetchOptions.both 0).stats
  { latestOperatorId := stats.latestOperatorId
    latestTestSessionId := stats.latestTestSessionId
    averageDuration := stats.averageDuration
    averagePassRate := stats.averagePassRate
    totalOperators := stats.totalOperators
    totalProducts := stats.totalProducts
    totalFailedTests := stats.totalFailedTests
    totalPassedTests := stats.totalPassedTests
    totalTestSessions := stats.totalTestSessions }

/-! ## WebSocketEventManager (events.websocket.ts): debounce, retry, keepalive -/

def EVENT_DEBOUNCE_DELAY : Nat := 1000

def KEEPALIVE_SKIP_THRESHOLD : Nat := 2000

/-- Payload of a domain mutation event (result.created / updated / deleted).
Optional fields model possibly-absent JS properties. -/
structure WebSocketEventData where
  result_id : Option String
  operator_id : Option String
  action : Option String
deriving Repr, DecidableEq

/-- isValidStatsData heuristic of the event manager: at least one of total
sessions / operators / products is nonzero (the `stats?.stats` existence
check always passes on a typed snapshot). -/
def isValidStatsData (statsData : WebSocketStatsData) : Bool :=
  statsData.stats.totalTestSessions > 0 || statsData.stats.totalOperators > 0 ||
    statsData.stats.totalProducts > 0

/-- shouldSkipKeepalive: a debounced update cycle fired within the last
KEEPALIVE_SKIP_THRESHOLD ms (lastEventTime is the recorded trigger instant). -/
def shouldSkipKeepalive (lastEventTime now : Nat) : Bool :=
  now - lastEventTime < KEEPALIVE_SKIP_THRESHOLD

/-- Outcome of one retry attempt's forced stats fetch, as decided by the
environment: the raw stores it observed, or a thrown error. -/
inductive FetchOutcome
  | ok (raw : RawSource)
  | fail (e : String)
deriving Repr, DecidableEq

/-- Result of getStatsWithRetry: the produced snapshot or the rethrown last
error, plus the service state afterwards. -/
structure RetryResult where
  result : Except String WebSocketStatsData
  state : ServiceState
deriving Repr

/-- The retry loop of getStatsWithRetry. Each attempt is a forced
getAggregatedStats(1, true) whose raw-fetch outcome and instant are given by
the environment; a thrown attempt records lastError and continues. After the
loop: rethrow the recorded last error if any, otherwise perform the
non-forced getAggregatedStats(1, false) read (at `finalTime`, against
`finalRaw` on a cache miss). -/
def getStatsWithRetryGo (lib : String → ℚ) (finalRaw : RawSource) (finalTime : Nat) :
    List (FetchOutcome × Nat) → Option String → ServiceState → RetryResult
  | [], lastError, st =>
      match lastError with
      | some e => { result := Except.error e, state := st }
      | none =>
          let r := getAggregatedStats lib finalRaw st 1 false finalTime
          { result := Except.ok r.value, state := r.state }
  | (outcome, t) :: rest, lastError, st =>
      match outcome with
      | FetchOutcome.fail e => getStatsWithRetryGo lib finalRaw finalTime rest (some e) st
      | FetchOutcome.ok raw =>
          let r := getAggregatedStats lib raw st 1 true t
          if isValidStatsData r.value then { result := Except.ok r.value, state := r.state }
          else getStatsWithRetryGo lib finalRaw finalTime rest lastError r.state

def getStatsWithRetry (lib : String → ℚ) (finalRaw : RawSource) (finalTime : Nat)
    (attempts : List (FetchOutcome × Nat)) (st : ServiceState) : RetryResult :=
  getStatsWithRetryGo lib finalRaw finalTime attempts none st

/-- JS `x || 'unknown'` on an optional string (empty string is falsy). -/
def actionOrUnknown (action : Option String) : String :=
  match action with
  | some a => if a = "" then "unknown" else a
  | none => "unknown"

/-- Metadata attached to a realtime update broadcast. -/
structure UpdateMetadata where
  operator_id : Option String
  result_id : Option String
  update_time : Nat
  action : String
deriving Repr, DecidableEq

/-- Payload handed to the client broadcaster by the debounced update logic. -/
structure UpdateData where
  event : String
  stats : StatsFields
  metadata : UpdateMetadata
deriving Repr, DecidableEq

/-- Result of one debounced update cycle: the recorded trigger instant
(new lastEventTime), the service state afterwards, and the broadcast payload
handed to the client broadcaster (none when the retry fetch threw on exit,
in which case the error is only logged). -/
structure UpdateCycleResult where
  lastEventTime : Nat
  svc : ServiceState
  broadcast : Option UpdateData
deriving Repr, DecidableEq

/-- The body of debouncedUpdateLogic, invoked at the debounce trailing edge
at `fireTime` with the last event's `data`: record the trigger instant,
invalidate the cache, wait the consistency delay, fetch with retry (attempt
outcomes/instants given by the environment), then hand the update payload to
the broadcaster; a failed retry is logged and produces no broadcast. -/
def debouncedUpdateBody (lib : String → ℚ) (finalRaw : RawSource)
    (attempts : List (FetchOutcome × Nat)) (finalTime : Nat)
    (data : WebSocketEventData) (fireTime broadcastTime : Nat)
    (svc : ServiceState) : UpdateCycleResult :=
  let lastEventTime := fireTime
  let svc := clearCache svc
  let r := getStatsWithRetry lib finalRaw finalTime attempts svc
  match r.result with
  | Except.ok updatedStats =>
      { lastEventTime := lastEventTime
        svc := r.state
        broadcast := some
          { event := "realtime_update"
            stats := updatedStats.stats
            metadata :=
              { operator_id := data.operator_id
                result_id := data.result_id
                update_time := broadcastTime
                action := actionOrUnknown data.action } } }
  | Except.error _ =>
      { lastEventTime := lastEventTime, svc := r.state, broadcast := none }

/-- The trailing-edge debounce combinator of events.websocket.ts, run over a
timeline. State: the pending (args, fireTime) timer if any. A new call
clears the pending timer and schedules its own at callTime + wait; a pending
timer whose fireTime is reached before the next call fires with its stored
args. The returned list is the sequence of (fireTime, args) invocations. -/
def debounceRun (wait : Nat) :
    List (Nat × WebSocketEventData) → Option (WebSocketEventData × Nat) →
    List (Nat × WebSocketEventData)
  | [], pending =>
      match pending with
      | some (a, ft) => [(ft, a)]
      | none => []
  | (t, a) :: rest, pending =>
      match pending with
      | some (a0, ft) =>
          if ft ≤ t then (ft, a0) :: debounceRun wait rest (some (a, t + wait))
          else debounceRun wait rest (some (a, t + wait))
      | none => debounceRun wait rest (some (a, t + wait))

/-- A burst of calls in which every call lands strictly before the timer set
by its predecessor (first predecessor timer set at prevT + wait). -/
def burstFrom (wait : Nat) : Nat → List (Nat × WebSocketEventData) → Prop
  | _, [] => True
  | prevT, (t, _) :: rest => t < prevT + wait ∧ burstFrom wait t rest

instance (wait prevT : Nat) (calls : List (Nat × WebSocketEventData)) :
    Decidable (burstFrom wait prevT calls) := by
  induction calls generalizing prevT with
  | nil => exact isTrue trivial
  | cons hd tl ih =>
      have : Decidable (hd.1 < prevT + wait ∧ burstFrom wait hd.1 tl) :=
        @instDecidableAnd _ _ _ (ih hd.1)
      exact this

/-! ## WebSocketClientManager (events.websocket.ts): registry and sends -/

/-- Duck-typed transport handle: numeric readyState (1 = open) and a send
operation whose throwing behavior is decided by the environment flag
`sendThrows` (the close operation touches no modelled state). -/
structure WebSocketConnection where
  readyState : Nat
  sendThrows : Bool
deriving Repr, DecidableEq

/-- A registered client. `subscriptions` models the JS Set: insertion order,
no duplicates. -/
structure WebSocketClient where
  id : String
  ws : WebSocketConnection
  subscriptions : List String
  last_activity : Nat
deriving Repr, DecidableEq

inductive WebSocketResponseType
  | stats
  | top_operators
  | top_products
  | global_stats
  | update
  | error
  | subscribed
  | unsubscribed
deriving Repr, DecidableEq

/-- The possible `data` payloads of outbound responses. -/
inductive ResponsePayload
  | subscriptionInfo (subscribed_events : List String) (total_subscriptions : Nat)
  | unsubscriptionInfo (unsubscribed_events : List String) (total_subscriptions : Nat)
  | statsInfo (kind : String) (stats : StatsFields)
  | updateInfo (u : UpdateData)
  | topOperatorList (l : List TopOperatorStats)
  | topProductList (l : List ProductStats)
  | globalInfo (g : GlobalStatsView)
deriving Repr, DecidableEq

/-- Outbound response envelope; `timestamp` is the creation instant (the ISO
string of the source). -/
structure WebSocketResponse where
  type : WebSocketResponseType
  data : Option ResponsePayload
  error : Option String
  timestamp : Nat
deriving Repr, DecidableEq

/-- WebSocketValidation.createResponse. -/
def createResponse (type : WebSocketResponseType) (data : Option ResponsePayload)
    (error : Option String) (now : Nat) : WebSocketResponse :=
  { type := type, data := data, error := error, timestamp := now }

def isValidClient (client : WebSocketClient) : Bool :=
  client.ws.readyState = 1

/-- removeClient: best-effort close of the transport (no modelled state) and
deletion from the registry map. -/
def removeClient (clients : List WebSocketClient) (clientId : String) :
    List WebSocketClient :=
  clients.filter (fun c => c.id ≠ clientId)

/-- ws.send, throwing as decided by the transport's environment flag. -/
def wsSend (ws : WebSocketConnection) : Except String Unit :=
  if ws.sendThrows then Except.error "send failed" else Except.ok ()

/-- Result of sendToClient: the returned boolean, the registry afterwards,
and the frames actually written to this client's transport. -/
structure SendResult where
  ok : Bool
  clients : List WebSocketClient
  delivered : List WebSocketResponse
deriving Repr, DecidableEq

/-- sendToClient: an invalid (non-open) client is evicted and the call
returns false; a throwing send is caught, evicts the client and returns
false; otherwise the frame is written and last_activity updated. The
function is total: no branch propagates an exception. -/
def sendToClient (clients : List WebSocketClient) (client : WebSocketClient)
    (response : WebSocketResponse) (now : Nat) : SendResult :=
  if ¬ isValidClient client then
    { ok := false, clients := removeClient clients client.id, delivered := [] }
  else
    match wsSend client.ws with
    | Except.error _ =>
        { ok := false, clients := removeClient clients client.id, delivered := [] }
    | Except.ok _ =>
        { ok := true
          clients := clients.map (fun c =>
            if c.id = client.id then { c with last_activity := now } else c)
          delivered := [response] }

def getSubscribedClients (clients : List WebSocketClient) (eventType : String) :
    List WebSocketClient :=
  clients.filter (fun c => isValidClient c && c.subscriptions.contains eventType)

/-- Result of a broadcast: the registry afterwards and the ids of clients to
which the frame was successfully written. -/
structure BroadcastResult where
  clients : List WebSocketClient
  sentIds : List String
deriving Repr, DecidableEq

/-- One step of a forEach-send loop over the recipients, threading the
registry. -/
def broadcastStep (response : WebSocketResponse) (now : Nat)
    (acc : BroadcastResult) (c : WebSocketClient) : BroadcastResult :=
  let r := sendToClient acc.clients c response now
  { clients := r.clients, sentIds := acc.sentIds ++ if r.ok then [c.id] else [] }

/-- broadcastUpdate: wrap the payload in an `update` response and send it to
every open client subscribed to stats_updates, threading the registry
through the per-client sends. -/
def broadcastUpdate (clients : List WebSocketClient) (data : ResponsePayload)
    (now : Nat) : BroadcastResult :=
  let response := createResponse WebSocketResponseType.update (some data) none now
  let subscribedClients := getSubscribedClients clients "stats_updates"
  subscribedClients.foldl (broadcastStep response now) { clients := clients, sentIds := [] }

/-- cleanupInactiveClients: evict clients whose transport is not open or
whose last activity is older than the timeout. -/
def cleanupInactiveClients (clients : List WebSocketClient) (now clientTimeout : Nat) :
    List WebSocketClient :=
  clients.filter (fun c => isValidClient c && ¬ (now - c.last_activity > clientTimeout))

/-- Result of a keepalive tick: whether a stats fetch was performed, the
registry and service state afterwards, and the ids that received the frame. -/
structure KeepaliveResult where
  fetched : Bool
  clients : List WebSocketClient
  sentIds : List String
  svc : ServiceState
deriving Repr, DecidableEq

/-- sendKeepAliveToAll: does nothing when there are no clients or the event
manager says to skip; otherwise fetches the (possibly cached) snapshot and
pushes a keepalive-tagged stats response to all stats_updates subscribers. -/
def sendKeepAliveToAll (lib : String → ℚ) (raw : RawSource) (svc : ServiceState)
    (clients : List WebSocketClient) (lastEventTime now : Nat) : KeepaliveResult :=
  if clients.length = 0 || shouldSkipKeepalive lastEventTime now then
    { fetched := false, clients := clients, sentIds := [], svc := svc }
  else
    let r := getAggregatedStats lib raw svc 1 false now
    let keepaliveMessage :=
      createResponse WebSocketResponseType.stats
        (some (ResponsePayload.statsInfo "keepalive" r.value.stats)) none now
    let subscribedClients := getSubscribedClients clients "stats_updates"
    let folded := subscribedClients.foldl (broadcastStep keepaliveMessage now)
      { clients := clients, sentIds := [] }
    { fetched := true, clients := folded.clients, sentIds := folded.sentIds, svc := r.state }

/-! ## WebSocketValidation (validation.websocket.ts) -/

def VALID_MESSAGE_TYPES : List String :=
  ["subscribe", "unsubscribe", "get_stats", "get_top_operators",
   "get_top_products", "get_global_stats"]

def VALID_EVENT_TYPES : List String :=
  ["stats_updates", "operator_updates", "result_updates"]

def MIN_LIMIT : Int := 1

def MAX_LIMIT : Int := 100

inductive WebSocketMessageType
  | subscribe
  | unsubscribe
  | get_stats
  | get_top_operators
  | get_top_products
  | get_global_stats
deriving Repr, DecidableEq

/-- The already-JSON-parsed `data` member of an inbound message, with each
optional field either absent or carrying a value of its expected JS type
(fields of entirely wrong JS type also fail validation in the source; the
claims only exercise well-typed fields). -/
structure RawMessageData where
  events : Option (List String)
  limit : Option Int
  force_refresh : Option Bool
deriving Repr, DecidableEq

/-- An inbound message after JSON parsing to an object. -/
structure RawMessage where
  type : String
  data : Option RawMessageData
deriving Repr, DecidableEq

/-- Validated message data. -/
structure WebSocketMessageData where
  events : Option (List String)
  limit : Option Int
  force_refresh : Option Bool
deriving Repr, DecidableEq

/-- Validated inbound message. -/
structure WebSocketMessage where
  type : WebSocketMessageType
  data : Option WebSocketMessageData
deriving Repr, DecidableEq

def validateMessageType (type : String) : Except String WebSocketMessageType :=
  match type with
  | "subscribe" => Except.ok WebSocketMessageType.subscribe
  | "unsubscribe" => Except.ok WebSocketMessageType.unsubscribe
  | "get_stats" => Except.ok WebSocketMessageType.get_stats
  | "get_top_operators" => Except.ok WebSocketMessageType.get_top_operators
  | "get_top_products" => Except.ok WebSocketMessageType.get_top_products
  | "get_global_stats" => Except.ok WebSocketMessageType.get_global_stats
  | t => Except.error ("Invalid message type: " ++ t)

/-- validateEvents: rejects the list at the first member that is not a valid
event type (non-string members also fail in the source). -/
def validateEvents (events : List String) : Except String (List String) :=
  match events.find? (fun e => ! VALID_EVENT_TYPES.contains e) with
  | some e => Except.error ("Invalid event type: " ++ e)
  | none => Except.ok events

def validateLimit (limit : Int) : Except String Int :=
  if limit < MIN_LIMIT ∨ limit > MAX_LIMIT then
    Except.error "Limit must be an integer between 1 and 100"
  else Except.ok limit

def validateForceRefresh (forceRefresh : Bool) : Except String Bool :=
  Except.ok forceRefresh

/-- validateMessageData: absent data passes as undefined; otherwise each
present field is validated in turn. -/
def validateMessageData (data : Option RawMessageData) :
    Except String (Option WebSocketMessageData) :=
  match data with
  | none => Except.ok none
  | some dataObj => do
      let events ← match dataObj.events with
        | some evts => Except.map some (validateEvents evts)
        | none => Except.ok none
      let limit ← match dataObj.limit with
        | some l => Except.map some (validateLimit l)
        | none => Except.ok none
      let force_refresh ← match dataObj.force_refresh with
        | some f => Except.map some (validateForceRefresh f)
        | none => Except.ok none
      Except.ok (some { events := events, limit := limit, force_refresh := force_refresh })

/-- validateMessage on an already-parsed JSON object (string-level parse and
non-object rejection happen before this model's entry point). -/
def validateMessage (message : RawMessage) : Except String WebSocketMessage := do
  let type ← validateMessageType message.type
  let data ← validateMessageData message.data
  Except.ok { type := type, data := data }

/-! ## WebSocketHandler (handler.websocket.ts) -/

def WEBSOCKET_EVENTS : List String :=
  ["stats_updates", "operator_updates", "result_updates"]

def DEFAULT_SUBSCRIPTIONS : List String := ["stats_updates"]

def isValidWebSocketEvent (event : String) : Bool :=
  WEBSOCKET_EVENTS.contains event

/-- JS Set.add for each list member: insert if absent, keeping order. -/
def setAddAll (s : List String) (xs : List String) : List String :=
  xs.foldl (fun acc e => if acc.contains e then acc else acc ++ [e]) s

/-- JS Set.delete for each list member. -/
def setDeleteAll (s : List String) (xs : List String) : List String :=
  s.filter (fun e => ¬ xs.contains e)

/-- Immutable context a handler call closes over: the duration library, the
raw-data source it would observe, nothing else. -/
structure HandlerCtx where
  lib : String → ℚ
  raw : RawSource

/-- Result of processing one inbound message (or one connection event): the
registry and service state afterwards, and the frames actually written to the
originating client's transport. -/
structure ProcessResult where
  clients : List WebSocketClient
  svc : ServiceState
  delivered : List WebSocketResponse
deriving Repr

/-- Replace the registry's entry for this client id (the source mutates the
shared client object held by the Map). -/
def updateClientInRegistry (clients : List WebSocketClient)
    (client : WebSocketClient) : List WebSocketClient :=
  clients.map (fun c => if c.id = client.id then client else c)

/-- handleSubscribe: filter to valid topics, add them to the subscription
set, confirm with the new subscription count. -/
def handleSubscribe (ctx : HandlerCtx) (svc : ServiceState)
    (clients : List WebSocketClient) (client : WebSocketClient)
    (events : List String) (now : Nat) : ProcessResult :=
  let validEvents := events.filter isValidWebSocketEvent
  let client := { client with subscriptions := setAddAll client.subscriptions validEvents }
  let clients := updateClientInRegistry clients client
  let response :=
    createResponse WebSocketResponseType.subscribed
      (some (ResponsePayload.subscriptionInfo validEvents client.subscriptions.length))
      none now
  let s := sendToClient clients client response now
  { clients := s.clients, svc := svc, delivered := s.delivered }

/-- handleUnsubscribe: delete the named events, confirm with the new count. -/
def handleUnsubscribe (ctx : HandlerCtx) (svc : ServiceState)
    (clients : List WebSocketClient) (client : WebSocketClient)
    (events : List String) (now : Nat) : ProcessResult :=
  let client := { client with subscriptions := setDeleteAll client.subscriptions events }
  let clients := updateClientInRegistry clients client
  let response :=
    createResponse WebSocketResponseType.unsubscribed
      (some (ResponsePayload.unsubscriptionInfo events client.subscriptions.length))
      none now
  let s := sendToClient clients client response now
  { clients := s.clients, svc := svc, delivered := s.delivered }

def handleGetStats (ctx : HandlerCtx) (svc : ServiceState)
    (clients : List WebSocketClient) (client : WebSocketClient)
    (force_refresh : Option Bool) (now : Nat) : ProcessResult :=
  let r := getAggregatedStats ctx.lib ctx.raw svc 1 (force_refresh.getD false) now
  let response :=
    createResponse WebSocketResponseType.stats
      (some (ResponsePayload.statsInfo "requested" r.value.stats)) none now
  let s := sendToClient clients client response now
  { clients := s.clients, svc := r.state, delivered := s.delivered }

def handleGetTopOperators (ctx : HandlerCtx) (svc : ServiceState)
    (clients : List WebSocketClient) (client : WebSocketClient)
    (limit : Nat) (now : Nat) : ProcessResult :=
  let topOperators := getTopOperators ctx.lib ctx.raw limit
  let response :=
    createResponse WebSocketResponseType.top_operators
      (some (ResponsePayload.topOperatorList topOperators)) none now
  let s := sendToClient clients client response now
  { clients := s.clients, svc := svc, delivered := s.delivered }

def handleGetTopProducts (ctx : HandlerCtx) (svc : ServiceState)
    (clients : List WebSocketClient) (client : WebSocketClient)
    (limit : Nat) (now : Nat) : ProcessResult :=
  let topProducts := getTopProducts ctx.lib ctx.raw limit
  let response :=
    createResponse WebSocketResponseType.top_products
      (some (ResponsePayload.topProductList topProducts)) none now
  let s := sendToClient clients client response now
  { clients := s.clients, svc := svc, delivered := s.delivered }

def handleGetGlobalStats (ctx : HandlerCtx) (svc : ServiceState)
    (clients : List WebSocketClient) (client : WebSocketClient)
    (now : Nat) : ProcessResult :=
  let globalStats := getGlobalStats ctx.lib ctx.raw
  let response :=
    createResponse WebSocketResponseType.global_stats
      (some (ResponsePayload.globalInfo globalStats)) none now
  let s := sendToClient clients client response now
  { clients := s.clients, svc := svc, delivered := s.delivered }

/-- sendError: an error response to the originating connection only. -/
def sendError (clients : List WebSocketClient) (client : WebSocketClient)
    (message : String) (now : Nat) : SendResult :=
  sendToClient clients client (createResponse WebSocketResponseType.error none (some message) now) now

/-- processMessage: the dispatch table over validated messages. Limits
default to 10 (top operators) and 1 (top products) when absent; validated
limits are in [1, 100] so the Int-to-Nat conversion is lossless. -/
def processMessage (ctx : HandlerCtx) (svc : ServiceState)
    (clients : List WebSocketClient) (client : WebSocketClient)
    (message : WebSocketMessage) (now : Nat) : ProcessResult :=
  match message.type with
  | WebSocketMessageType.subscribe =>
      handleSubscribe ctx svc clients client ((message.data.bind (fun d => d.events)).getD []) now
  | WebSocketMessageType.unsubscribe =>
      handleUnsubscribe ctx svc clients client ((message.data.bind (fun d => d.events)).getD []) now
  | WebSocketMessageType.get_stats =>
      handleGetStats ctx svc clients client (message.data.bind (fun d => d.force_refresh)) now
  | WebSocketMessageType.get_top_operators =>
      handleGetTopOperators ctx svc clients client
        (((message.data.bind (fun d => d.limit)).getD 10).toNat) now
  | WebSocketMessageType.get_top_products =>
      handleGetTopProducts ctx svc clients client
        (((message.data.bind (fun d => d.limit)).getD 1).toNat) now
  | WebSocketMessageType.get_global_stats =>
      handleGetGlobalStats ctx svc clients client now

/-- handleMessage for an already-registered client (findClientByWs found it):
refresh last_activity, validate, then dispatch; a validation failure sends an
error response to the originating connection and closes nothing. -/
def handleMessage (ctx : HandlerCtx) (svc : ServiceState)
    (clients : List WebSocketClient) (client : WebSocketClient)
    (message : RawMessage) (now : Nat) : ProcessResult :=
  let client := { client with last_activity := now }
  let clients := updateClientInRegistry clients client
  match validateMessage message with
  | Except.ok parsedMessage => processMessage ctx svc clients client parsedMessage now
  | Except.error e =>
      let s := sendError clients client e now
      { clients := s.clients, svc := svc, delivered := s.delivered }

/-- Result of handleConnection: the registry and service state afterwards,
the constructed initial response, the tier that produced its snapshot, and
the frames written to the new client. -/
structure ConnectionResult where
  clients : List WebSocketClient
  svc : ServiceState
  initial : WebSocketResponse
  tier : CacheTier
  delivered : List WebSocketResponse
deriving Repr

/-- handleConnection: register the new client with the default subscriptions,
then send the initial stats response built from getAggregatedStats(1, true). -/
def handleConnection (ctx : HandlerCtx) (svc : ServiceState)
    (clients : List WebSocketClient) (clientId : String)
    (ws : WebSocketConnection) (now : Nat) : ConnectionResult :=
  let client : WebSocketClient :=
    { id := clientId, ws := ws, subscriptions := DEFAULT_SUBSCRIPTIONS, last_activity := now }
  let clients := clients ++ [client]
  let fr := getAggregatedStats ctx.lib ctx.raw svc 1 true now
  let response :=
    createResponse WebSocketResponseType.stats
      (some (ResponsePayload.statsInfo "initial" fr.value.stats)) none now
  let s := sendToClient clients client response now
  { clients := s.clients, svc := fr.state, initial := response, tier := fr.tier,
    delivered := s.delivered }

/-! ## Observers and sample data used by witnesses and counterexamples -/

/-- Whether a retry run ended in a rethrown error (broadcast skipped). -/
def retryFailed (r : RetryResult) : Bool :=
  match r.result with
  | Except.error _ => true
  | Except.ok _ => false

/-- The rethrown error of a retry run, if any. -/
def retryError (r : RetryResult) : Option String :=
  match r.result with
  | Except.error e => some e
  | Except.ok _ => none

/-- The produced snapshot of a retry run, if any. -/
def retryValue (r : RetryResult) : Option WebSocketStatsData :=
  match r.result with
  | Except.error _ => none
  | Except.ok v => some v

/-- An attempt that completed without throwing but failed the validity
heuristic. -/
def attemptOkInvalid (lib : String → ℚ) (p : FetchOutcome × Nat) : Bool :=
  match p.1 with
  | FetchOutcome.ok raw =>
      ! isValidStatsData (fetchAndGenerateStats lib raw FetchOptions.both 1)
  | FetchOutcome.fail _ => false

/-- An attempt that completed without throwing and passed the validity
heuristic. -/
def attemptValidOk (lib : String → ℚ) (p : FetchOutcome × Nat) : Bool :=
  match p.1 with
  | FetchOutcome.ok raw =>
      isValidStatsData (fetchAndGenerateStats lib raw FetchOptions.both 1)
  | FetchOutcome.fail _ => false

/-- An attempt whose fetch threw. -/
def attemptThrew (p : FetchOutcome × Nat) : Bool :=
  match p.1 with
  | FetchOutcome.fail _ => true
  | FetchOutcome.ok _ => false

/-- A duration library instance for concrete runs (no claim depends on it). -/
def sampleLib : String → ℚ := fun _ => 0

/-- A nonzero snapshot, distinct from the default stats. -/
def sampleStats : WebSocketStatsData :=
  { stats :=
    { topOperators := []
      topProducts := []
      products := []
      latestOperatorId := "op-1"
      latestTestSessionId := "sess-1"
      averageDuration := "2s"
      averagePassRate := 50
      totalOperators := 5
      totalProducts := 2
      totalFailedTests := 1
      totalPassedTests := 9
      totalTestSessions := 10 } }

def sampleOperatorA : OperatorAggregateData :=
  { _id := "opA", operator_name := "alice"
    stats := { average_duration := "", total_failed_tests := 1, total_passed_tests := 4
               total_test_sessions := 5, last_test_date := some 10, last_test_id := "tA" }
    createdAt := 100 }

def sampleOperatorB : OperatorAggregateData :=
  { _id := "opB", operator_name := "bob"
    stats := { average_duration := "", total_failed_tests := 0, total_passed_tests := 2
               total_test_sessions := 9, last_test_date := some 20, last_test_id := "tB" }
    createdAt := 200 }

def sampleServiceState : ServiceState :=
  { redisConnected := false, redisEntry := none, fallbackCache := none, lastFallbackUpdate := 0 }

/-- A client whose transport is not open (readyState 3 = closed). -/
def sampleDeadClient : WebSocketClient :=
  { id := "dead", ws := { readyState := 3, sendThrows := false }
    subscriptions := ["stats_updates"], last_activity := 0 }

/-- An open client whose send operation throws. -/
def sampleThrowingClient : WebSocketClient :=
  { id := "thr", ws := { readyState := 1, sendThrows := true }
    subscriptions := ["stats_updates"], last_activity := 0 }

/-- A healthy open client. -/
def sampleOpenClient : WebSocketClient :=
  { id := "open", ws := { readyState := 1, sendThrows := false }
    subscriptions := ["stats_updates"], last_activity := 0 }

def sampleResponse : WebSocketResponse :=
  createResponse WebSocketResponseType.stats none none 0

def sampleEventData : WebSocketEventData :=
  { result_id := some "r-9", operator_id := some "op-1", action := some "created" }

def sampleEvent1 : WebSocketEventData :=
  { result_id := some "r1", operator_id := some "op-9", action := some "created" }

def sampleEvent2 : WebSocketEventData :=
  { result_id := some "r2", operator_id := some "op-2", action := some "updated" }

def sampleEvent3 : WebSocketEventData :=
  { result_id := some "r3", operator_id := some "op-1", action := some "created" }

/-- Two follow-up events 100 ms apart after an initial event at t = 1000. -/
def sampleBurstTail : List (Nat × WebSocketEventData) :=
  [(1100, sampleEvent2), (1200, sampleEvent3)]

end NythForge

namespace NythForge

/-! ## Helper lemmas -/

theorem topOperatorPick_eq_or (a b : OperatorAggregateData) :
    topOperatorPick a b = a ∨ topOperatorPick a b = b := by
  unfold topOperatorPick
  split
  · exact Or.inr rfl
  · exact Or.inl rfl

theorem topOperatorPick_le_left (a b : OperatorAggregateData) :
    a.stats.total_test_sessions ≤ (topOperatorPick a b).stats.total_test_sessions := by
  unfold topOperatorPick
  split <;> omega

theorem topOperatorPick_le_right (a b : OperatorAggregateData) :
    b.stats.total_test_sessions ≤ (topOperatorPick a b).stats.total_test_sessions := by
  unfold topOperatorPick
  split <;> omega

theorem foldl_topOperatorPick_mem (rest : List OperatorAggregateData) :
    ∀ o : OperatorAggregateData, rest.foldl topOperatorPick o ∈ o :: rest := by
  induction rest with
  | nil => intro o; simp
  | cons r rs ih =>
      intro o
      have h := ih (topOperatorPick o r)
      rcases topOperatorPick_eq_or o r with hp | hp <;>
        · rw [hp] at h
          simp only [List.foldl_cons]
          rw [hp]
          rcases List.mem_cons.mp h with h1 | h1 <;> simp [h1]

theorem foldl_topOperatorPick_le (rest : List OperatorAggregateData) :
    ∀ o : OperatorAggregateData, ∀ x ∈ o :: rest,
      x.stats.total_test_sessions ≤ (rest.foldl topOperatorPick o).stats.total_test_sessions := by
  induction rest with
  | nil => intro o x hx; simp at hx; simp [hx]
  | cons r rs ih =>
      intro o x hx
      simp only [List.foldl_cons]
      rcases List.mem_cons.mp hx with h1 | h1
      · subst h1
        calc x.stats.total_test_sessions ≤ (topOperatorPick x r).stats.total_test_sessions :=
              topOperatorPick_le_left x r
          _ ≤ _ := ih (topOperatorPick x r) _ (List.mem_cons_self _ _)
      · rcases List.mem_cons.mp h1 with h2 | h2
        · subst h2
          calc x.stats.total_test_sessions ≤ (topOperatorPick o x).stats.total_test_sessions :=
                topOperatorPick_le_right o x
            _ ≤ _ := ih (topOperatorPick o x) _ (List.mem_cons_self _ _)
        · exact ih (topOperatorPick o r) x (List.mem_cons_of_mem _ h2)

/-! ## Claim C7 -/

/-- Claim C7: when both raw record sets are empty, getAggregatedStats with
forceRefresh = true returns the documented zeroed default stats object:
every totals field 0, topOperators/topProducts/products all empty,
latestOperatorId and latestTestSessionId empty strings, averageDuration
"0s", averagePassRate 0. -/
theorem C7_empty_source_returns_default_stats (lib : String → ℚ)
    (st : ServiceState) (now : Nat) :
    (getAggregatedStats lib { operators := [], results := [] } st 1 true now).value
        = DEFAULT_WEBSOCKET_STATS ∧
    DEFAULT_WEBSOCKET_STATS.stats.totalOperators = 0 ∧
    DEFAULT_WEBSOCKET_STATS.stats.totalProducts = 0 ∧
    DEFAULT_WEBSOCKET_STATS.stats.totalFailedTests = 0 ∧
    DEFAULT_WEBSOCKET_STATS.stats.totalPassedTests = 0 ∧
    DEFAULT_WEBSOCKET_STATS.stats.totalTestSessions = 0 ∧
    DEFAULT_WEBSOCKET_STATS.stats.topOperators = [] ∧
    DEFAULT_WEBSOCKET_STATS.stats.topProducts = [] ∧
    DEFAULT_WEBSOCKET_STATS.stats.products = [] ∧
    DEFAULT_WEBSOCKET_STATS.stats.latestOperatorId = "" ∧
    DEFAULT_WEBSOCKET_STATS.stats.latestTestSessionId = "" ∧
    DEFAULT_WEBSOCKET_STATS.stats.averageDuration = "0s" ∧
    DEFAULT_WEBSOCKET_STATS.stats.averagePassRate = 0 := by
  refine ⟨?_, rfl, rfl, rfl, rfl, rfl, rfl, rfl, rfl, rfl, rfl, rfl, rfl⟩
  rfl

/-! ## Claim C9 -/

/-- Claim C9: for every limit and every non-empty operator record set,
getTopOperators returns at most one entry; the computation reduces to the
single operator with the most total test sessions before the limit is
applied, and for a positive limit the result is exactly that operator's
one-element ranking. -/
theorem C9_getTopOperators_at_most_one (lib : String → ℚ) (raw : RawSource)
    (limit : Nat) (hne : raw.operators ≠ []) :
    (getTopOperators lib raw limit).length ≤ 1 ∧
    (1 ≤ limit →
      ∃ top, top ∈ raw.operators ∧
        getTopOperators lib raw limit =
          [{ operatorId := top._id, operatorName := top.operator_name,
             totalTestSessions := top.stats.total_test_sessions }] ∧
        ∀ o ∈ raw.operators,
          o.stats.total_test_sessions ≤ top.stats.total_test_sessions) := by
  have hbase : (fetchAndGenerateStats lib raw FetchOptions.operators 0).stats.topOperators
      = calculateTopOperators raw.operators := by
    simp [fetchAndGenerateStats, generateWebSocketStatsData]
  unfold getTopOperators
  rw [hbase]
  match hops : raw.operators with
  | [] => exact absurd hops hne
  | o :: rest =>
      constructor
      · simp only [calculateTopOperators]
        rw [List.length_take]
        simp only [List.length_cons, List.length_nil]
        omega
      · intro hlim
        refine ⟨rest.foldl topOperatorPick o, foldl_topOperatorPick_mem rest o, ?_, ?_⟩
        · simp only [calculateTopOperators]
          match limit, hlim with
          | Nat.succ n, _ => simp
        · intro x hx
          exact foldl_topOperatorPick_le rest o x hx

/-- Witness for C9 at a concrete input: two operators, limit 5; the result
is the single top operator. -/
theorem C9_witness :
    ({ operators := [sampleOperatorA, sampleOperatorB], results := [] } : RawSource).operators ≠ [] ∧
    ((getTopOperators sampleLib { operators := [sampleOperatorA, sampleOperatorB], results := [] } 5).length ≤ 1 ∧
      (1 ≤ 5 →
        ∃ top, top ∈ ({ operators := [sampleOperatorA, sampleOperatorB], results := [] } : RawSource).operators ∧
          getTopOperators sampleLib { operators := [sampleOperatorA, sampleOperatorB], results := [] } 5 =
            [{ operatorId := top._id, operatorName := top.operator_name,
               totalTestSessions := top.stats.total_test_sessions }] ∧
          ∀ o ∈ ({ operators := [sampleOperatorA, sampleOperatorB], results := [] } : RawSource).operators,
            o.stats.total_test_sessions ≤ top.stats.total_test_sessions)) :=
  ⟨by decide,
    C9_getTopOperators_at_most_one sampleLib
      { operators := [sampleOperatorA, sampleOperatorB], results := [] } 5 (by decide)⟩

/-! ## Claim C8 -/

/-- Claim C8: sending to a client whose transport is not open (readyState
not 1) removes it from the registry and returns false; and a throwing send
is caught, likewise evicting the client and returning false, so sendToClient
never propagates an exception (it is a total function into SendResult). -/
theorem C8_sendToClient_evicts_and_never_throws
    (clients : List WebSocketClient) (client : WebSocketClient)
    (response : WebSocketResponse) (now : Nat) :
    (client.ws.readyState ≠ 1 →
      (sendToClient clients client response now).ok = false ∧
      ∀ c ∈ (sendToClient clients client response now).clients, c.id ≠ client.id) ∧
    (client.ws.sendThrows = true →
      (sendToClient clients client response now).ok = false ∧
      ∀ c ∈ (sendToClient clients client response now).clients, c.id ≠ client.id) := by
  constructor
  · intro h
    have hv : isValidClient client = false := by
      simp [isValidClient]
      exact h
    constructor
    · simp [sendToClient, hv]
    · intro c hc
      simp only [sendToClient, hv, Bool.not_eq_true, Bool.false_eq_true,
        not_false_eq_true, if_pos] at hc
      simp only [removeClient, List.mem_filter, decide_eq_true_eq] at hc
      exact hc.2
  · intro h
    by_cases hv : isValidClient client = true
    · have hs : wsSend client.ws = Except.error "send failed" := by
        simp [wsSend, h]
      constructor
      · simp [sendToClient, hv, hs]
      · intro c hc
        simp only [sendToClient, hv, not_true_eq_false, if_neg, hs,
          not_false_eq_true] at hc
        simp only [removeClient, List.mem_filter, decide_eq_true_eq] at hc
        exact hc.2
    · have hv' : isValidClient client = false := by
        simpa using hv
      constructor
      · simp [sendToClient, hv']
      · intro c hc
        simp only [sendToClient, hv', Bool.not_eq_true, Bool.false_eq_true,
          not_false_eq_true, if_pos] at hc
        simp only [removeClient, List.mem_filter, decide_eq_true_eq] at hc
        exact hc.2

/-- Witness for C8: a registered client with readyState 3 and a throwing
send; both eviction paths apply at this concrete input. -/
theorem C8_witness :
    (sampleDeadClient.ws.readyState ≠ 1 →
      (sendToClient [sampleDeadClient] sampleDeadClient sampleResponse 5).ok = false ∧
      ∀ c ∈ (sendToClient [sampleDeadClient] sampleDeadClient sampleResponse 5).clients,
        c.id ≠ sampleDeadClient.id) ∧
    (sampleDeadClient.ws.readyState ≠ 1) ∧
    (sendToClient [sampleDeadClient] sampleDeadClient sampleResponse 5).ok = false :=
  ⟨(C8_sendToClient_evicts_and_never_throws [sampleDeadClient] sampleDeadClient sampleResponse 5).1,
    by decide,
    ((C8_sendToClient_evicts_and_never_throws [sampleDeadClient] sampleDeadClient
        sampleResponse 5).1 (by decide)).1⟩

/-! ## Claim C10 -/

/-- sendToClient leaves every registry member with a different id in the
registry. -/
theorem sendToClient_preserves_other_id
    (clients : List WebSocketClient) (client : WebSocketClient)
    (response : WebSocketResponse) (now : Nat) (c : WebSocketClient)
    (hmem : c ∈ clients) (hid : c.id ≠ client.id) :
    c ∈ (sendToClient clients client response now).clients := by
  unfold sendToClient
  by_cases hv : isValidClient client = true
  · simp only [hv, not_true_eq_false, if_neg, not_false_eq_true]
    cases hs : wsSend client.ws with
    | error e =>
        simp only [removeClient, List.mem_filter, decide_eq_true_eq]
        exact ⟨hmem, hid⟩
    | ok u =>
        refine List.mem_map.mpr ⟨c, hmem, ?_⟩
        simp [hid]
  · have hv' : isValidClient client = false := by simpa using hv
    simp only [hv', Bool.false_eq_true, not_false_eq_true, if_pos]
    simp only [removeClient, List.mem_filter, decide_eq_true_eq]
    exact ⟨hmem, hid⟩

/-- The broadcast send loop preserves every registry member whose id differs
from all recipients'. -/
theorem broadcast_foldl_preserves (response : WebSocketResponse) (now : Nat) :
    ∀ (targets : List WebSocketClient) (acc : BroadcastResult) (c : WebSocketClient),
      c ∈ acc.clients → (∀ x ∈ targets, x.id ≠ c.id) →
      c ∈ (targets.foldl (broadcastStep response now) acc).clients := by
  intro targets
  induction targets with
  | nil => intro acc c hc _; exact hc
  | cons t ts ih =>
      intro acc c hc hids
      simp only [List.foldl_cons]
      refine ih _ c ?_ (fun x hx => hids x (List.mem_cons_of_mem _ hx))
      unfold broadcastStep
      exact sendToClient_preserves_other_id acc.clients t response now c hc
        (fun he => hids t (List.mem_cons_self _ _) he.symm)

/-- Claim C10 counterexample: broadcastUpdate does remove a connection when a
subscribed open client's send throws — the registry is emptied here, so
"broadcastUpdate never removes a connection from the registry" fails. -/
theorem C10_counterexample :
    (broadcastUpdate [sampleThrowingClient]
        (ResponsePayload.statsInfo "x" DEFAULT_WEBSOCKET_STATS.stats) 5).clients = [] ∧
    sampleThrowingClient.ws.readyState = 1 := by
  decide

/-- Claim C10 (amended): broadcastUpdate never removes a client whose
transport is not open: such a client is filtered out of the recipient set
before any send is attempted, stays registered through the broadcast, and is
only evicted by a direct sendToClient call or the periodic cleanup sweep
(an open subscribed client whose send throws is, however, removed during the
broadcast via sendToClient's catch path). -/
theorem C10_broadcast_preserves_non_open_clients
    (clients : List WebSocketClient) (data : ResponsePayload)
    (now cTimeout : Nat) (c : WebSocketClient)
    (hmem : c ∈ clients) (hbad : isValidClient c = false)
    (hids : (clients.map (fun x => x.id)).Nodup) :
    c ∉ getSubscribedClients clients "stats_updates" ∧
    c ∈ (broadcastUpdate clients data now).clients ∧
    c ∉ cleanupInactiveClients clients now cTimeout := by
  refine ⟨?_, ?_, ?_⟩
  · intro hin
    simp only [getSubscribedClients, List.mem_filter, Bool.and_eq_true] at hin
    rw [hbad] at hin
    exact absurd hin.2.1 (by simp)
  · unfold broadcastUpdate
    refine broadcast_foldl_preserves _ now _ _ c hmem ?_
    intro x hx he
    simp only [getSubscribedClients, List.mem_filter, Bool.and_eq_true] at hx
    have hxc : x = c :=
      List.inj_on_of_nodup_map hids hx.1 hmem he
    rw [hxc] at hx
    rw [hbad] at hx
    exact absurd hx.2.1 (by simp)
  · intro hin
    simp only [cleanupInactiveClients, List.mem_filter, Bool.and_eq_true] at hin
    rw [hbad] at hin
    exact absurd hin.2.1 (by simp)

/-- Witness for C10 at a concrete registry: the dead client is not a
recipient, survives the broadcast, and is evicted by the cleanup sweep. -/
theorem C10_witness :
    sampleDeadClient ∉ getSubscribedClients [sampleOpenClient, sampleDeadClient] "stats_updates" ∧
    sampleDeadClient ∈ (broadcastUpdate [sampleOpenClient, sampleDeadClient]
        (ResponsePayload.statsInfo "x" DEFAULT_WEBSOCKET_STATS.stats) 5).clients ∧
    sampleDeadClient ∉ cleanupInactiveClients [sampleOpenClient, sampleDeadClient] 5 120000 :=
  C10_broadcast_preserves_non_open_clients [sampleOpenClient, sampleDeadClient]
    (ResponsePayload.statsInfo "x" DEFAULT_WEBSOCKET_STATS.stats) 5 120000 sampleDeadClient
    (by decide) (by decide) (by decide)


/-! ## Claim C6 -/

theorem redisCachedRead_spec (st : ServiceState) (now : Nat) (d : WebSocketStatsData)
    (h : redisCachedRead st now = some d) :
    st.redisConnected = true ∧ ∃ e, st.redisEntry = some e ∧ e.validShape = true ∧
      now < e.writtenAt + CACHE_TTL_MS ∧ d = e.payload := by
  unfold redisCachedRead redisGet at h
  by_cases hconn : st.redisConnected = true
  · refine ⟨hconn, ?_⟩
    cases hre : st.redisEntry with
    | some e =>
        simp only [hconn, if_true, hre] at h
        by_cases httl : now < e.writtenAt + CACHE_TTL_MS
        · simp only [httl, if_pos] at h
          by_cases hvs : e.validShape = true
          · simp only [hvs, if_pos, Option.some.injEq] at h
            exact ⟨e, rfl, hvs, httl, h.symm⟩
          · simp [hvs] at h
        · simp [httl] at h
    | none => simp [hconn, hre] at h
  · simp [hconn] at h

theorem fallbackCachedRead_spec (st : ServiceState) (now : Nat)
    (d : WebSocketStatsData) (tier : CacheTier)
    (h : fallbackCachedRead st now = some (d, tier)) :
    tier = CacheTier.fallback ∧ st.fallbackCache = some d ∧
      now - st.lastFallbackUpdate < CACHE_TTL_MS := by
  unfold fallbackCachedRead shouldUseFallbackCache at h
  cases hfb : st.fallbackCache with
  | some fb =>
      simp only [hfb, Option.isSome_some, Bool.true_and, decide_eq_true_eq] at h
      by_cases httl : now - st.lastFallbackUpdate < CACHE_TTL_MS
      · simp only [httl, if_pos, Option.some.injEq, Prod.mk.injEq] at h
        exact ⟨h.2.symm, by rw [h.1], httl⟩
      · simp [httl] at h
  | none => simp [hfb] at h

theorem fallbackCachedRead_hit (st : ServiceState) (now : Nat)
    (fb : WebSocketStatsData) (hfb : st.fallbackCache = some fb)
    (httl : now - st.lastFallbackUpdate < CACHE_TTL_MS) :
    fallbackCachedRead st now = some (fb, CacheTier.fallback) := by
  unfold fallbackCachedRead shouldUseFallbackCache
  simp [hfb, httl]

theorem getCachedData_spec (st : ServiceState) (now : Nat) (d : WebSocketStatsData)
    (tier : CacheTier) (h : getCachedData st now = some (d, tier)) :
    (tier = CacheTier.redis → st.redisConnected = true ∧ ∃ e, st.redisEntry = some e ∧
        e.validShape = true ∧ now < e.writtenAt + CACHE_TTL_MS ∧ d = e.payload) ∧
    (tier = CacheTier.fallback → st.fallbackCache = some d ∧
        now - st.lastFallbackUpdate < CACHE_TTL_MS) := by
  unfold getCachedData at h
  cases hr : redisCachedRead st now with
  | some rd =>
      simp only [hr, Option.some.injEq, Prod.mk.injEq] at h
      obtain ⟨hd, ht⟩ := h
      subst hd; subst ht
      refine ⟨fun _ => redisCachedRead_spec st now rd hr, fun hcontra => ?_⟩
      simp at hcontra
  | none =>
      simp only [hr] at h
      have hs := fallbackCachedRead_spec st now d tier h
      refine ⟨fun hcontra => ?_, fun _ => ⟨hs.2.1, hs.2.2⟩⟩
      rw [hs.1] at hcontra
      simp at hcontra

theorem getAggregatedStats_false_hit (lib : String → ℚ) (raw : RawSource)
    (st : ServiceState) (limit now : Nat) (d : WebSocketStatsData) (tier : CacheTier)
    (h : getCachedData st now = some (d, tier)) :
    getAggregatedStats lib raw st limit false now = { value := d, tier := tier, state := st } := by
  unfold getAggregatedStats
  simp [h]

theorem getAggregatedStats_false_miss (lib : String → ℚ) (raw : RawSource)
    (st : ServiceState) (limit now : Nat) (h : getCachedData st now = none) :
    getAggregatedStats lib raw st limit false now =
      { value := fetchAndGenerateStats lib raw FetchOptions.both limit
        tier := CacheTier.fresh
        state := setCachedData st (fetchAndGenerateStats lib raw FetchOptions.both limit) now } := by
  unfold getAggregatedStats
  simp [h]

theorem getAggregatedStats_true_eq (lib : String → ℚ) (raw : RawSource)
    (st : ServiceState) (limit now : Nat) :
    getAggregatedStats lib raw st limit true now =
      { value := fetchAndGenerateStats lib raw FetchOptions.both limit
        tier := CacheTier.fresh
        state := setCachedData st (fetchAndGenerateStats lib raw FetchOptions.both limit) now } := rfl

theorem getCachedData_after_set (st : ServiceState) (v : WebSocketStatsData) (t now : Nat)
    (h1 : t ≤ now) (h2 : now - t < CACHE_TTL_MS) :
    ∃ tier, tier ≠ CacheTier.fresh ∧
      getCachedData (setCachedData st v t) now = some (v, tier) := by
  by_cases hconn : st.redisConnected = true
  · refine ⟨CacheTier.redis, by simp, ?_⟩
    unfold setCachedData getCachedData redisCachedRead redisGet
    have hlt : now < t + CACHE_TTL_MS := by omega
    simp [hconn, hlt]
  · refine ⟨CacheTier.fallback, by simp, ?_⟩
    have hconn' : st.redisConnected = false := by simpa using hconn
    unfold setCachedData getCachedData redisCachedRead
    simp only [hconn', if_false, Bool.false_eq_true]
    have : fallbackCachedRead { st with fallbackCache := some v, lastFallbackUpdate := t } now
        = some (v, CacheTier.fallback) := by
      unfold fallbackCachedRead shouldUseFallbackCache
      simp [h2]
    simpa using this

/-- Claim C6: getAggregatedStats with forceRefresh = false never returns a
cache entry older than the 30 s TTL — a Redis-served value comes from an
entry still within TTL, a fallback-served value from a fallback written
within TTL, and an all-tiers miss triggers a fresh compute; moreover, when
the primary cache is unreachable and the local fallback was populated within
TTL, the fallback value is returned without invoking the raw-data fetch
(state unchanged, tier = fallback). -/
theorem C6_cache_ttl_and_fallback_precedence (lib : String → ℚ) (raw : RawSource)
    (st : ServiceState) (limit now : Nat) :
    ((getAggregatedStats lib raw st limit false now).tier = CacheTier.redis →
      st.redisConnected = true ∧ ∃ e, st.redisEntry = some e ∧ e.validShape = true ∧
        now < e.writtenAt + CACHE_TTL_MS ∧
        (getAggregatedStats lib raw st limit false now).value = e.payload) ∧
    ((getAggregatedStats lib raw st limit false now).tier = CacheTier.fallback →
      st.fallbackCache = some (getAggregatedStats lib raw st limit false now).value ∧
        now - st.lastFallbackUpdate < CACHE_TTL_MS) ∧
    (getCachedData st now = none →
      (getAggregatedStats lib raw st limit false now).tier = CacheTier.fresh ∧
      (getAggregatedStats lib raw st limit false now).value =
        fetchAndGenerateStats lib raw FetchOptions.both limit) ∧
    (∀ fb, st.redisConnected = false → st.fallbackCache = some fb →
      now - st.lastFallbackUpdate < CACHE_TTL_MS →
      getAggregatedStats lib raw st limit false now =
        { value := fb, tier := CacheTier.fallback, state := st }) := by
  refine ⟨?_, ?_, ?_, ?_⟩
  · intro htier
    cases hc : getCachedData st now with
    | some p =>
        obtain ⟨d, tier⟩ := p
        rw [getAggregatedStats_false_hit lib raw st limit now d tier hc] at htier ⊢
        have hs := (getCachedData_spec st now d tier hc).1 htier
        exact hs
    | none =>
        rw [getAggregatedStats_false_miss lib raw st limit now hc] at htier
        simp at htier
  · intro htier
    cases hc : getCachedData st now with
    | some p =>
        obtain ⟨d, tier⟩ := p
        rw [getAggregatedStats_false_hit lib raw st limit now d tier hc] at htier ⊢
        have hs := (getCachedData_spec st now d tier hc).2 htier
        exact hs
    | none =>
        rw [getAggregatedStats_false_miss lib raw st limit now hc] at htier
        simp at htier
  · intro hc
    rw [getAggregatedStats_false_miss lib raw st limit now hc]
    exact ⟨rfl, rfl⟩
  · intro fb hconn hfb httl
    have hr : redisCachedRead st now = none := by
      unfold redisCachedRead
      simp [hconn]
    have hh : getCachedData st now = some (fb, CacheTier.fallback) := by
      unfold getCachedData
      rw [hr]
      exact fallbackCachedRead_hit st now fb hfb httl
    exact getAggregatedStats_false_hit lib raw st limit now fb CacheTier.fallback hh

/-- Witness for C6: with Redis unreachable and a fallback written 10 ms ago,
the fallback value is served without a fetch. -/
theorem C6_witness :
    getAggregatedStats sampleLib { operators := [], results := [] }
        { redisConnected := false, redisEntry := none,
          fallbackCache := some sampleStats, lastFallbackUpdate := 100 } 1 false 110 =
      { value := sampleStats, tier := CacheTier.fallback
        state := { redisConnected := false, redisEntry := none,
                   fallbackCache := some sampleStats, lastFallbackUpdate := 100 } } :=
  (C6_cache_ttl_and_fallback_precedence sampleLib { operators := [], results := [] }
      { redisConnected := false, redisEntry := none,
        fallbackCache := some sampleStats, lastFallbackUpdate := 100 } 1 110).2.2.2
    sampleStats rfl rfl (by decide)


/-! ## Claim C2 -/

/-- After a run of non-throwing attempts that all fail validity, the
post-loop non-forced read serves the cache entry written by the final
attempt (within TTL), so the final attempt's computed snapshot is returned. -/
theorem retry_all_invalid_final_value (lib : String → ℚ) (finalRaw rawN : RawSource)
    (tN finalTime : Nat) (h1 : tN ≤ finalTime) (h2 : finalTime - tN < CACHE_TTL_MS)
    (hN : attemptOkInvalid lib (FetchOutcome.ok rawN, tN) = true) :
    ∀ (init : List (FetchOutcome × Nat)) (st : ServiceState),
      init.all (attemptOkInvalid lib) = true →
      retryValue (getStatsWithRetry lib finalRaw finalTime
          (init ++ [(FetchOutcome.ok rawN, tN)]) st)
        = some (fetchAndGenerateStats lib rawN FetchOptions.both 1) := by
  have hNinv : isValidStatsData (fetchAndGenerateStats lib rawN FetchOptions.both 1) = false := by
    simpa [attemptOkInvalid] using hN
  intro init
  induction init with
  | nil =>
      intro st _
      simp only [getStatsWithRetry, List.nil_append]
      simp only [getStatsWithRetryGo, getAggregatedStats_true_eq, hNinv,
        Bool.false_eq_true, if_false]
      obtain ⟨tier, htier, hget⟩ :=
        getCachedData_after_set st (fetchAndGenerateStats lib rawN FetchOptions.both 1)
          tN finalTime h1 h2
      rw [getAggregatedStats_false_hit lib finalRaw _ 1 finalTime _ tier hget]
      rfl
  | cons p ps ih =>
      intro st hall
      simp only [List.all_cons, Bool.and_eq_true] at hall
      obtain ⟨hp, hps⟩ := hall
      obtain ⟨outcome, t⟩ := p
      cases outcome with
      | fail e => simp [attemptOkInvalid] at hp
      | ok raw0 =>
          have h0 : isValidStatsData (fetchAndGenerateStats lib raw0 FetchOptions.both 1) = false := by
            simpa [attemptOkInvalid] using hp
          have ih' := ih st hps
          simp only [getStatsWithRetry, List.cons_append] at ih' ⊢
          simp only [getStatsWithRetryGo, getAggregatedStats_true_eq, h0,
            Bool.false_eq_true, if_false]
          exact ih _ hps

/-- When no attempt returns valid stats, the retry loop ends in a rethrown
error exactly when an error was already recorded or some attempt throws. -/
theorem retryGo_failed_iff (lib : String → ℚ) (finalRaw : RawSource) (finalTime : Nat) :
    ∀ (attempts : List (FetchOutcome × Nat)) (le : Option String) (st : ServiceState),
      attempts.all (fun p => ! attemptValidOk lib p) = true →
      retryFailed (getStatsWithRetryGo lib finalRaw finalTime attempts le st)
        = (le.isSome || attempts.any attemptThrew) := by
  intro attempts
  induction attempts with
  | nil =>
      intro le st _
      cases le with
      | some e => rfl
      | none => rfl
  | cons p ps ih =>
      intro le st hall
      simp only [List.all_cons, Bool.and_eq_true] at hall
      obtain ⟨hp, hps⟩ := hall
      obtain ⟨outcome, t⟩ := p
      cases outcome with
      | fail e =>
          simp only [getStatsWithRetryGo]
          rw [ih (some e) st hps]
          simp [attemptThrew]
      | ok raw0 =>
          have h0 : isValidStatsData (fetchAndGenerateStats lib raw0 FetchOptions.both 1) = false := by
            simpa [attemptValidOk] using hp
          simp only [getStatsWithRetryGo, getAggregatedStats_true_eq, h0,
            Bool.false_eq_true, if_false]
          rw [ih le _ hps]
          simp [attemptThrew]

/-- Claim C2 (amended): in the 3-attempt retry loop, if every attempt
completes without throwing but none passes the validity heuristic, the loop
exits with no recorded error and performs a non-forced cache read that
returns the value written by the final attempt, so fan-out proceeds with the
final attempt's result (best-effort); and, given that no attempt returned
valid stats, the retry rethrows (broadcast skipped, error only logged)
exactly when at least one attempt threw — the recorded last error is
rethrown even when the final attempt itself completed without throwing. -/
theorem C2_retry_best_effort_and_skip_condition
    (lib : String → ℚ) (finalRaw rawN : RawSource) (st : ServiceState)
    (init attempts : List (FetchOutcome × Nat)) (tN finalTime : Nat) :
    (init.all (attemptOkInvalid lib) = true →
      attemptOkInvalid lib (FetchOutcome.ok rawN, tN) = true →
      tN ≤ finalTime → finalTime - tN < CACHE_TTL_MS →
      retryValue (getStatsWithRetry lib finalRaw finalTime
          (init ++ [(FetchOutcome.ok rawN, tN)]) st)
        = some (fetchAndGenerateStats lib rawN FetchOptions.both 1)) ∧
    (attempts.all (fun p => ! attemptValidOk lib p) = true →
      retryFailed (getStatsWithRetry lib finalRaw finalTime attempts st)
        = attempts.any attemptThrew) := by
  constructor
  · intro hall hN h1 h2
    exact retry_all_invalid_final_value lib finalRaw rawN tN finalTime h1 h2 hN init st hall
  · intro hall
    unfold getStatsWithRetry
    rw [retryGo_failed_iff lib finalRaw finalTime attempts none st hall]
    rfl

/-- Claim C2 counterexample: attempt 1 throws "boom", attempts 2 and 3
complete but fail validity; the loop rethrows "boom" and the broadcast is
skipped although the fetch did not throw on the final attempt — refuting
"a broadcast is skipped exactly when the fetch throws on the final
attempt". -/
theorem C2_counterexample :
    retryError (getStatsWithRetry sampleLib { operators := [], results := [] } 1500
        [(FetchOutcome.fail "boom", 600),
         (FetchOutcome.ok { operators := [], results := [] }, 800),
         (FetchOutcome.ok { operators := [], results := [] }, 1200)] sampleServiceState)
      = some "boom" ∧
    ([(FetchOutcome.fail "boom", 600),
      (FetchOutcome.ok ({ operators := [], results := [] } : RawSource), 800),
      (FetchOutcome.ok ({ operators := [], results := [] } : RawSource), 1200)].getLast?
        = some (FetchOutcome.ok { operators := [], results := [] }, 1200)) := by
  decide

/-- Witness for C2 at a concrete input: one non-throwing invalid attempt;
the post-loop cache read returns that attempt's computed snapshot. -/
theorem C2_witness :
    ([] : List (FetchOutcome × Nat)).all (attemptOkInvalid sampleLib) = true ∧
    attemptOkInvalid sampleLib (FetchOutcome.ok { operators := [], results := [] }, 1200) = true ∧
    1200 ≤ 1500 ∧ 1500 - 1200 < CACHE_TTL_MS ∧
    retryValue (getStatsWithRetry sampleLib { operators := [sampleOperatorA], results := [] } 1500
        ([] ++ [(FetchOutcome.ok { operators := [], results := [] }, 1200)]) sampleServiceState)
      = some (fetchAndGenerateStats sampleLib { operators := [], results := [] } FetchOptions.both 1) :=
  ⟨by decide, by decide, by decide, by decide,
    (C2_retry_best_effort_and_skip_condition sampleLib
        { operators := [sampleOperatorA], results := [] }
        { operators := [], results := [] } sampleServiceState [] [] 1200 1500).1
      (by decide) (by decide) (by decide) (by decide)⟩


/-! ## Claim C5 -/

/-- A pending debounce timer survives a burst of calls each arriving before
the previous timer fires: the run produces exactly one trailing invocation,
at the last call's time plus the wait, with the last call's data. -/
theorem debounceRun_pending_burst (wait : Nat) :
    ∀ (calls : List (Nat × WebSocketEventData)) (prevT : Nat) (a0 : WebSocketEventData),
      burstFrom wait prevT calls →
      debounceRun wait calls (some (a0, prevT + wait)) =
        [((calls.getLastD (prevT, a0)).1 + wait, (calls.getLastD (prevT, a0)).2)] := by
  intro calls
  induction calls with
  | nil => intro prevT a0 _; rfl
  | cons c rest ih =>
      intro prevT a0 h
      obtain ⟨t, a⟩ := c
      obtain ⟨h1, h2⟩ := h
      simp only [debounceRun]
      rw [if_neg (by omega)]
      rw [ih t a h2]
      rw [List.getLastD_cons]

/-- Claim C5: N >= 1 events with gaps strictly below the 1000 ms debounce
window collapse into exactly one trailing invocation of the update cycle,
carrying only the last event's data; the broadcast that cycle produces (when
the retry fetch succeeds) takes operator_id, result_id and action from that
last event, the earlier events contributing nothing but timer restarts. -/
theorem C5_debounce_collapse_last_metadata
    (rest : List (Nat × WebSocketEventData)) (t1 : Nat) (d1 : WebSocketEventData)
    (hb : burstFrom EVENT_DEBOUNCE_DELAY t1 rest)
    (lib : String → ℚ) (finalRaw : RawSource) (attempts : List (FetchOutcome × Nat))
    (finalTime broadcastTime : Nat) (svc : ServiceState) :
    debounceRun EVENT_DEBOUNCE_DELAY ((t1, d1) :: rest) none =
      [((rest.getLastD (t1, d1)).1 + EVENT_DEBOUNCE_DELAY, (rest.getLastD (t1, d1)).2)] ∧
    (∀ u, (debouncedUpdateBody lib finalRaw attempts finalTime
            (rest.getLastD (t1, d1)).2
            ((rest.getLastD (t1, d1)).1 + EVENT_DEBOUNCE_DELAY)
            broadcastTime svc).broadcast = some u →
       u.event = "realtime_update" ∧
       u.metadata.operator_id = (rest.getLastD (t1, d1)).2.operator_id ∧
       u.metadata.result_id = (rest.getLastD (t1, d1)).2.result_id ∧
       u.metadata.action = actionOrUnknown (rest.getLastD (t1, d1)).2.action) := by
  constructor
  · simp only [debounceRun]
    exact debounceRun_pending_burst EVENT_DEBOUNCE_DELAY rest t1 d1 hb
  · intro u hu
    unfold debouncedUpdateBody at hu
    simp only [] at hu
    cases hres : (getStatsWithRetry lib finalRaw finalTime attempts (clearCache svc)).result with
    | ok v =>
        rw [hres] at hu
        simp only [Option.some.injEq] at hu
        subst hu
        exact ⟨rfl, rfl, rfl, rfl⟩
    | error e =>
        rw [hres] at hu
        simp at hu

/-- Witness for C5: three events at 1000/1100/1200 ms (gaps 100 ms); one
invocation at 2200 ms with the third event's data. -/
theorem C5_witness :
    burstFrom EVENT_DEBOUNCE_DELAY 1000 sampleBurstTail ∧
    (debounceRun EVENT_DEBOUNCE_DELAY ((1000, sampleEvent1) :: sampleBurstTail) none =
        [((sampleBurstTail.getLastD (1000, sampleEvent1)).1 + EVENT_DEBOUNCE_DELAY,
          (sampleBurstTail.getLastD (1000, sampleEvent1)).2)] ∧
      (∀ u, (debouncedUpdateBody sampleLib { operators := [sampleOperatorA], results := [] }
              [(FetchOutcome.ok { operators := [sampleOperatorA], results := [] }, 2700)] 2900
              (sampleBurstTail.getLastD (1000, sampleEvent1)).2
              ((sampleBurstTail.getLastD (1000, sampleEvent1)).1 + EVENT_DEBOUNCE_DELAY)
              3000 sampleServiceState).broadcast = some u →
         u.event = "realtime_update" ∧
         u.metadata.operator_id = (sampleBurstTail.getLastD (1000, sampleEvent1)).2.operator_id ∧
         u.metadata.result_id = (sampleBurstTail.getLastD (1000, sampleEvent1)).2.result_id ∧
         u.metadata.action = actionOrUnknown (sampleBurstTail.getLastD (1000, sampleEvent1)).2.action)) :=
  ⟨by decide,
    C5_debounce_collapse_last_metadata sampleBurstTail 1000 sampleEvent1 (by decide)
      sampleLib { operators := [sampleOperatorA], results := [] }
      [(FetchOutcome.ok { operators := [sampleOperatorA], results := [] }, 2700)]
      2900 3000 sampleServiceState⟩


/-! ## Claim C4 -/

/-- Claim C4 (amended): shouldSkipKeepalive returns true exactly when the
debounced update cycle last fired within 2000 ms — the trigger instant is
recorded at the start of the cycle whether or not a broadcast was sent — and
when it returns true (or there are no connections) the keepalive tick
performs no stats fetch and sends nothing to any client. -/
theorem C4_keepalive_suppression
    (lib : String → ℚ) (finalRaw raw : RawSource) (attempts : List (FetchOutcome × Nat))
    (finalTime : Nat) (data : WebSocketEventData) (fireTime broadcastTime : Nat)
    (svc svc2 : ServiceState) (clients : List WebSocketClient) (lastEventTime now : Nat) :
    ((debouncedUpdateBody lib finalRaw attempts finalTime data fireTime broadcastTime
        svc).lastEventTime = fireTime) ∧
    (shouldSkipKeepalive lastEventTime now = true ↔
      now - lastEventTime < KEEPALIVE_SKIP_THRESHOLD) ∧
    (clients = [] ∨ shouldSkipKeepalive lastEventTime now = true →
      sendKeepAliveToAll lib raw svc2 clients lastEventTime now =
        { fetched := false, clients := clients, sentIds := [], svc := svc2 }) := by
  refine ⟨?_, ?_, ?_⟩
  · unfold debouncedUpdateBody
    simp only []
    cases (getStatsWithRetry lib finalRaw finalTime attempts (clearCache svc)).result with
    | ok v => rfl
    | error e => rfl
  · simp [shouldSkipKeepalive]
  · intro h
    cases h with
    | inl hempty =>
        subst hempty
        rfl
    | inr hskip =>
        unfold sendKeepAliveToAll
        rw [hskip]
        simp

/-- Claim C4 counterexample: an update cycle fires at t = 10000 but every
fetch attempt throws, so no broadcast is ever sent; shouldSkipKeepalive at
t = 11000 is nevertheless true — refuting "returns true exactly when a real
update broadcast happened within the last 2000 ms". -/
theorem C4_counterexample :
    (debouncedUpdateBody sampleLib { operators := [], results := [] }
        [(FetchOutcome.fail "db down", 10600), (FetchOutcome.fail "db down", 10800),
         (FetchOutcome.fail "db down", 11200)] 11200 sampleEventData 10000 11300
        sampleServiceState).broadcast = none ∧
    shouldSkipKeepalive
      (debouncedUpdateBody sampleLib { operators := [], results := [] }
        [(FetchOutcome.fail "db down", 10600), (FetchOutcome.fail "db down", 10800),
         (FetchOutcome.fail "db down", 11200)] 11200 sampleEventData 10000 11300
        sampleServiceState).lastEventTime 11000 = true := by
  decide

/-- Witness for C4: the trigger instant 777 is recorded, and a keepalive
tick with no connections fetches nothing and sends nothing. -/
theorem C4_witness :
    (debouncedUpdateBody sampleLib { operators := [], results := [] } [] 0 sampleEventData
        777 800 sampleServiceState).lastEventTime = 777 ∧
    sendKeepAliveToAll sampleLib { operators := [], results := [] } sampleServiceState []
        777 1000 = { fetched := false, clients := [], sentIds := [], svc := sampleServiceState } :=
  ⟨(C4_keepalive_suppression sampleLib { operators := [], results := [] }
      { operators := [], results := [] } [] 0 sampleEventData 777 800 sampleServiceState
      sampleServiceState [] 777 1000).1,
   (C4_keepalive_suppression sampleLib { operators := [], results := [] }
      { operators := [], results := [] } [] 0 sampleEventData 777 800 sampleServiceState
      sampleServiceState [] 777 1000).2.2 (Or.inl rfl)⟩

/-! ## Claim C1 -/

/-- Mapping a function that preserves ids and subscriptions over the
registry leaves the (id, subscriptions) projection unchanged. -/
theorem registry_proj_map (clients : List WebSocketClient)
    (f : WebSocketClient → WebSocketClient)
    (hid : ∀ c ∈ clients, (f c).id = c.id)
    (hsubs : ∀ c ∈ clients, (f c).subscriptions = c.subscriptions) :
    (clients.map f).map (fun c => (c.id, c.subscriptions)) =
      clients.map (fun c => (c.id, c.subscriptions)) := by
  induction clients with
  | nil => rfl
  | cons c cs ih =>
      simp only [List.map_cons, List.cons.injEq]
      refine ⟨?_, ih (fun x hx => hid x (List.mem_cons_of_mem _ hx))
          (fun x hx => hsubs x (List.mem_cons_of_mem _ hx))⟩
      rw [hid c (List.mem_cons_self _ _), hsubs c (List.mem_cons_self _ _)]

/-- A subscribe message whose events list contains an invalid topic fails
validateMessage (validateEvents throws at the first invalid member). -/
theorem validateMessage_subscribe_invalid_topic (events : List String) (d : RawMessageData)
    (hd : d.events = some events)
    (hbad : events.any (fun e => ! VALID_EVENT_TYPES.contains e) = true) :
    ∃ e, validateMessage { type := "subscribe", data := some d } = Except.error e := by
  obtain ⟨y, hy⟩ : ∃ y, events.find? (fun e => ! VALID_EVENT_TYPES.contains e) = some y := by
    rw [List.any_eq_true] at hbad
    obtain ⟨x, hx, hpx⟩ := hbad
    have : (events.find? (fun e => ! VALID_EVENT_TYPES.contains e)).isSome = true := by
      rw [List.find?_isSome]
      exact ⟨x, hx, hpx⟩
    exact Option.isSome_iff_exists.mp this
  refine ⟨"Invalid event type: " ++ y, ?_⟩
  unfold validateMessage validateMessageType validateMessageData
  simp only [hd]
  unfold validateEvents
  rw [hy]
  rfl

/-- Claim C1 (amended): an inbound subscribe message whose data.events
contains a string that is not one of the three valid topics is rejected by
message validation: exactly one response is sent to the originating
connection and it is an 'error' response (not 'subscribed'), no
subscriptions are added (every client's subscription set is unchanged), the
service state is untouched, and the connection stays registered. -/
theorem C1_subscribe_invalid_topic_rejected
    (ctx : HandlerCtx) (svc : ServiceState) (clients : List WebSocketClient)
    (client : WebSocketClient) (events : List String) (now : Nat)
    (hbad : events.any (fun e => ! VALID_EVENT_TYPES.contains e) = true)
    (hmem : client ∈ clients) (hids : (clients.map (fun c => c.id)).Nodup)
    (hopen : client.ws.readyState = 1) (hnothrow : client.ws.sendThrows = false) :
    (handleMessage ctx svc clients client
        { type := "subscribe",
          data := some { events := some events, limit := none, force_refresh := none } }
        now).delivered.map (fun resp => resp.type) = [WebSocketResponseType.error] ∧
    (handleMessage ctx svc clients client
        { type := "subscribe",
          data := some { events := some events, limit := none, force_refresh := none } }
        now).clients.map (fun c => (c.id, c.subscriptions))
      = clients.map (fun c => (c.id, c.subscriptions)) ∧
    (handleMessage ctx svc clients client
        { type := "subscribe",
          data := some { events := some events, limit := none, force_refresh := none } }
        now).svc = svc := by
  obtain ⟨e, he⟩ := validateMessage_subscribe_invalid_topic events
    { events := some events, limit := none, force_refresh := none } rfl hbad
  have hvalid : isValidClient { client with last_activity := now } = true := by
    simp [isValidClient, hopen]
  have hsend : wsSend { client with last_activity := now }.ws = Except.ok () := by
    simp [wsSend, hnothrow]
  unfold handleMessage
  rw [he]
  unfold sendError sendToClient
  simp only [hvalid, hsend, not_true_eq_false, Bool.false_eq_true, if_neg,
    not_false_eq_true, eq_self_iff_true, not_true, if_false]
  refine ⟨by trivial, ?_, by trivial⟩
  have hproj1 : (updateClientInRegistry clients { client with last_activity := now }).map
      (fun c => (c.id, c.subscriptions)) = clients.map (fun c => (c.id, c.subscriptions)) := by
    unfold updateClientInRegistry
    refine registry_proj_map clients _ ?_ ?_
    · intro c _
      by_cases h : c.id = client.id
      · simp [h]
      · simp [h]
    · intro c hc
      by_cases h : c.id = client.id
      · have : c = client := List.inj_on_of_nodup_map hids hc hmem h
        subst this
        simp [h]
      · simp [h]
  calc ((updateClientInRegistry clients { client with last_activity := now }).map
          (fun c => if c.id = { client with last_activity := now }.id
            then { c with last_activity := now } else c)).map
        (fun c => (c.id, c.subscriptions))
      = (updateClientInRegistry clients { client with last_activity := now }).map
          (fun c => (c.id, c.subscriptions)) := by
        refine registry_proj_map _ _ ?_ ?_
        · intro c _
          by_cases h : c.id = client.id
          · simp [h]
          · simp [h]
        · intro c _
          by_cases h : c.id = client.id
          · simp [h]
          · simp [h]
    _ = clients.map (fun c => (c.id, c.subscriptions)) := hproj1

/-- Claim C1 counterexample: a subscribe with data.events = ["bogus_topic"]
is answered with an 'error' response, not a 'subscribed' response with
subscribed_events = [] — validateEvents throws on the invalid topic before
the handler's silent filter is ever reached. -/
theorem C1_counterexample :
    (handleMessage { lib := sampleLib, raw := { operators := [], results := [] } }
        sampleServiceState [sampleOpenClient] sampleOpenClient
        { type := "subscribe",
          data := some { events := some ["bogus_topic"], limit := none, force_refresh := none } }
        50).delivered.map (fun resp => resp.type) = [WebSocketResponseType.error] ∧
    ¬ ((handleMessage { lib := sampleLib, raw := { operators := [], results := [] } }
        sampleServiceState [sampleOpenClient] sampleOpenClient
        { type := "subscribe",
          data := some { events := some ["bogus_topic"], limit := none, force_refresh := none } }
        50).delivered.map (fun resp => resp.type) = [WebSocketResponseType.subscribed]) ∧
    (∀ c ∈ (handleMessage { lib := sampleLib, raw := { operators := [], results := [] } }
        sampleServiceState [sampleOpenClient] sampleOpenClient
        { type := "subscribe",
          data := some { events := some ["bogus_topic"], limit := none, force_refresh := none } }
        50).clients, c.subscriptions = ["stats_updates"]) := by
  decide

/-- Witness for C1 at a concrete registry and message. -/
theorem C1_witness :
    (handleMessage { lib := sampleLib, raw := { operators := [], results := [] } }
        sampleServiceState [sampleOpenClient] sampleOpenClient
        { type := "subscribe",
          data := some { events := some ["bogus_topic"], limit := none, force_refresh := none } }
        50).delivered.map (fun resp => resp.type) = [WebSocketResponseType.error] ∧
    (handleMessage { lib := sampleLib, raw := { operators := [], results := [] } }
        sampleServiceState [sampleOpenClient] sampleOpenClient
        { type := "subscribe",
          data := some { events := some ["bogus_topic"], limit := none, force_refresh := none } }
        50).clients.map (fun c => (c.id, c.subscriptions))
      = [sampleOpenClient].map (fun c => (c.id, c.subscriptions)) ∧
    (handleMessage { lib := sampleLib, raw := { operators := [], results := [] } }
        sampleServiceState [sampleOpenClient] sampleOpenClient
        { type := "subscribe",
          data := some { events := some ["bogus_topic"], limit := none, force_refresh := none } }
        50).svc = sampleServiceState :=
  C1_subscribe_invalid_topic_rejected
    { lib := sampleLib, raw := { operators := [], results := [] } } sampleServiceState
    [sampleOpenClient] sampleOpenClient ["bogus_topic"] 50
    (by decide) (by decide) (by decide) (by decide) (by decide)


/-! ## Claim C3 -/

/-- Claim C3 (amended): on every new connection the handler registers the
client with the default subscription set {stats_updates} and sends an
initial 'stats' response of type 'initial' — but the snapshot is obtained
with forceRefresh = true, so the cache is bypassed and the snapshot freshly
computed from the raw stores (tier = fresh), not the possibly cached
aggregate. -/
theorem C3_connection_registers_and_forces_refresh
    (ctx : HandlerCtx) (svc : ServiceState) (clients : List WebSocketClient)
    (clientId : String) (ws : WebSocketConnection) (now : Nat)
    (hopen : ws.readyState = 1) (hnothrow : ws.sendThrows = false) :
    (∃ c ∈ (handleConnection ctx svc clients clientId ws now).clients,
        c.id = clientId ∧ c.subscriptions = DEFAULT_SUBSCRIPTIONS) ∧
    (handleConnection ctx svc clients clientId ws now).initial.type
      = WebSocketResponseType.stats ∧
    (handleConnection ctx svc clients clientId ws now).initial.data
      = some (ResponsePayload.statsInfo "initial"
          (fetchAndGenerateStats ctx.lib ctx.raw FetchOptions.both 1).stats) ∧
    (handleConnection ctx svc clients clientId ws now).tier = CacheTier.fresh ∧
    (handleConnection ctx svc clients clientId ws now).delivered
      = [(handleConnection ctx svc clients clientId ws now).initial] := by
  have hvalid : isValidClient
      { id := clientId, ws := ws, subscriptions := DEFAULT_SUBSCRIPTIONS,
        last_activity := now } = true := by
    simp [isValidClient, hopen]
  have hsend : wsSend ws = Except.ok () := by
    simp [wsSend, hnothrow]
  unfold handleConnection sendToClient
  simp only [getAggregatedStats_true_eq, hvalid, hsend, not_true_eq_false,
    Bool.false_eq_true, if_neg, not_false_eq_true, eq_self_iff_true, not_true, if_false]
  refine ⟨?_, by trivial, by trivial, by trivial, by trivial⟩
  have hcm : (⟨clientId, ws, DEFAULT_SUBSCRIPTIONS, now⟩ : WebSocketClient) ∈
      clients ++ [(⟨clientId, ws, DEFAULT_SUBSCRIPTIONS, now⟩ : WebSocketClient)] :=
    List.mem_append_right _ (List.mem_singleton_self _)
  refine ⟨(⟨clientId, ws, DEFAULT_SUBSCRIPTIONS, now⟩ : WebSocketClient),
    List.mem_map.mpr ⟨(⟨clientId, ws, DEFAULT_SUBSCRIPTIONS, now⟩ : WebSocketClient), hcm, ?_⟩,
    rfl, rfl⟩
  simp

/-- Witness for C3 at a concrete connection. -/
theorem C3_witness :
    (∃ c ∈ (handleConnection { lib := sampleLib, raw := { operators := [], results := [] } }
        sampleServiceState [] "c1" { readyState := 1, sendThrows := false } 70).clients,
        c.id = "c1" ∧ c.subscriptions = DEFAULT_SUBSCRIPTIONS) ∧
    (handleConnection { lib := sampleLib, raw := { operators := [], results := [] } }
        sampleServiceState [] "c1" { readyState := 1, sendThrows := false } 70).initial.type
      = WebSocketResponseType.stats ∧
    (handleConnection { lib := sampleLib, raw := { operators := [], results := [] } }
        sampleServiceState [] "c1" { readyState := 1, sendThrows := false } 70).initial.data
      = some (ResponsePayload.statsInfo "initial"
          (fetchAndGenerateStats sampleLib { operators := [], results := [] }
            FetchOptions.both 1).stats) ∧
    (handleConnection { lib := sampleLib, raw := { operators := [], results := [] } }
        sampleServiceState [] "c1" { readyState := 1, sendThrows := false } 70).tier
      = CacheTier.fresh ∧
    (handleConnection { lib := sampleLib, raw := { operators := [], results := [] } }
        sampleServiceState [] "c1" { readyState := 1, sendThrows := false } 70).delivered
      = [(handleConnection { lib := sampleLib, raw := { operators := [], results := [] } }
          sampleServiceState [] "c1" { readyState := 1, sendThrows := false } 70).initial] :=
  C3_connection_registers_and_forces_refresh
    { lib := sampleLib, raw := { operators := [], results := [] } } sampleServiceState
    [] "c1" { readyState := 1, sendThrows := false } 70 (by decide) (by decide)

/-- Claim C3 counterexample: a valid cached snapshot (sampleStats, age 0)
exists, yet the initial response is built from a fresh compute of the raw
stores (here the default stats, distinct from the cached value) and the tier
is fresh — refuting "the aggregate read for the initial snapshot does not
force a cache-bypassing refresh". -/
theorem C3_counterexample :
    getCachedData
        { redisConnected := true,
          redisEntry := some { payload := sampleStats, validShape := true, writtenAt := 100 },
          fallbackCache := some sampleStats, lastFallbackUpdate := 100 } 100
      = some (sampleStats, CacheTier.redis) ∧
    (handleConnection { lib := sampleLib, raw := { operators := [], results := [] } }
        { redisConnected := true,
          redisEntry := some { payload := sampleStats, validShape := true, writtenAt := 100 },
          fallbackCache := some sampleStats, lastFallbackUpdate := 100 }
        [] "c1" { readyState := 1, sendThrows := false } 100).tier = CacheTier.fresh ∧
    (handleConnection { lib := sampleLib, raw := { operators := [], results := [] } }
        { redisConnected := true,
          redisEntry := some { payload := sampleStats, validShape := true, writtenAt := 100 },
          fallbackCache := some sampleStats, lastFallbackUpdate := 100 }
        [] "c1" { readyState := 1, sendThrows := false } 100).initial.data
      = some (ResponsePayload.statsInfo "initial" DEFAULT_WEBSOCKET_STATS.stats) ∧
    DEFAULT_WEBSOCKET_STATS ≠ sampleStats := by
  decide

end NythForge
